import Mathlib

/-!
Verification development for the clumio-bot repository (src/app.py and
src/clumio_client.py): a shallow embedding of its multi-source parameter
resolution, free-text mini-parsing, response formatting, interactive-flow
control and backend client logic, with theorems checking the behavioural
claims made about that code.

Conventions of the embedding:
* Python strings are Lean `String`s (well-formed Unicode scalar sequences).
* A Python variable that may hold `None` or a string is `Option String`;
  Python truthiness of such a variable is `truthy` below (both `None` and
  the empty string are falsy).
* Flask multi-dicts (`request.args`, `request.form`) are association lists
  `List (String × String)`; `.get` returns the first binding.
  `request.values` is the combined view, query string first, mirroring
  Flask's CombinedMultiDict of args then form.
* A parsed JSON body is `Option (List (String × String))`: `none` when the
  body is absent, unparseable, or not a dict (the code treats all of those
  alike); string-valued fields only, which is the shape the claims concern.
-/

namespace ClumioBot

/-- Python truthiness of an optional string: `None` and `""` are falsy. -/
def truthy : Option String → Bool
  | none => false
  | some s => s ≠ ""

/-- Python `a or b` on optional strings (used for the `x = x or y` fallback
assignments in src/app.py). -/
def pyOr (a b : Option String) : Option String :=
  if truthy a then a else b

/-- Flask `multidict.get(k)`: first binding of `k`, `None` when absent. -/
def getv (l : List (String × String)) (k : String) : Option String :=
  (l.find? (fun p => p.1 = k)).map (fun p => p.2)

/-- Flask `multidict.get(k, d)`: first binding of `k`, default `d` when absent. -/
def getD (l : List (String × String)) (k d : String) : String :=
  match getv l k with
  | some v => v
  | none => d

/-- Python `str.strip()` with no argument: remove leading and trailing
whitespace. -/
def pyStrip (s : String) : String :=
  String.mk (((s.data.dropWhile Char.isWhitespace).reverse.dropWhile Char.isWhitespace).reverse)

/-- Accumulating worker for `pySplit`. -/
def splitWsAux : List Char → List Char → List String
  | [], acc => if acc = [] then [] else [String.mk acc.reverse]
  | c :: cs, acc =>
    if c.isWhitespace then
      if acc = [] then splitWsAux cs []
      else String.mk acc.reverse :: splitWsAux cs []
    else splitWsAux cs (c :: acc)

/-- Python `str.split()` with no argument: split on whitespace runs,
discarding empty pieces. -/
def pySplit (s : String) : List String :=
  splitWsAux s.data []

/-- Whether a token contains an equals sign (the `if '=' in part` test). -/
def hasEq (s : String) : Bool :=
  s.data.contains '='

/-- Split a character list at the first `'='`, mirroring
`part.split('=', 1)` on a token known to contain `'='`. -/
def breakAtEq : List Char → List Char × List Char
  | [] => ([], [])
  | c :: rest =>
    if c = '=' then ([], rest)
    else
      let (k, v) := breakAtEq rest
      (c :: k, v)

/-- Python `key, value = part.split('=', 1)` as a pair of strings. -/
def splitFirstEq (s : String) : String × String :=
  let (k, v) := breakAtEq s.data
  (String.mk k, String.mk v)

/-- Decimal value of a list of ASCII digit characters (the value Python's
`int` returns on an all-digit string). -/
def natOfDigits (l : List Char) : Nat :=
  l.foldl (fun n c => n * 10 + (c.toNat - 48)) 0

/-- Tail of a valid Python integer-literal digit sequence: digits with
single underscores allowed only between digits. -/
def pyDigitsTail : List Char → Bool
  | [] => true
  | '_' :: c :: cs => c.isDigit && pyDigitsTail cs
  | '_' :: [] => false
  | c :: cs => c.isDigit && pyDigitsTail cs

/-- Modelled from the Python builtin `int(str)` (ASCII fragment): whether
`int(s)` succeeds — strip surrounding whitespace, optional single sign,
then a nonempty digit sequence with optional single underscores between
digits.  This is the acceptance test behind `/restore`'s
`try: int(bucket_id)` validation in src/app.py. -/
def pyIntOk (s : String) : Bool :=
  let t := s |> pyStrip
  let cs :=
    match t.data with
    | '+' :: r => r
    | '-' :: r => r
    | r => r
  match cs with
  | c :: rest => c.isDigit && pyDigitsTail rest
  | [] => false

/-- Modelled from the Python builtin `str.isdigit` (ASCII fragment):
nonempty and every character an ASCII decimal digit.  This is the test
`bucket_id.isdigit()` in src/clumio_client.py. -/
def pyIsDigitStr (s : String) : Bool :=
  s ≠ "" && s.data.all Char.isDigit

/-- Whether `p` occurs as a contiguous slice of `l` (used to state that an
error message mentions a phrase). -/
def containsSlice (p : List Char) : List Char → Bool
  | [] => p.isPrefixOf []
  | c :: rest => p.isPrefixOf (c :: rest) || containsSlice p rest

/-- The error string `hay` mentions the phrase `needle`. -/
def mentions (hay needle : String) : Bool :=
  containsSlice needle.data hay.data

/-! ## Account masking (format_slack_inventory_response, src/app.py lines 74-81)

```python
account_str = str(account_native_id)
if len(account_str) > 4:
    masked_account = '*' * (len(account_str) - 4) + account_str[-4:]
else:
    masked_account = '*' * len(account_str)
```
-/

/-- Python `'*' * n` as a string. -/
def starRepeat (n : Nat) : String :=
  String.mk (List.replicate n '*')

/-- The account-masking computation of `format_slack_inventory_response`:
all but the last four characters replaced by `'*'`, or the whole string
replaced when it has at most four characters. -/
def maskAccount (s : String) : String :=
  if s.length > 4 then
    starRepeat (s.length - 4) ++ String.mk (s.data.drop (s.length - 4))
  else
    starRepeat s.length

/-! ## ClumioClient.restore request body (src/clumio_client.py lines 182-192)

```python
data = {}
if bucket_name:
    data['bucket_name'] = bucket_name
if bucket_id:
    data['bucket_id'] = int(bucket_id) if bucket_id.isdigit() else bucket_id
if object_key:
    data['object_key'] = object_key
```
-/

/-- A JSON value placed in the outbound restore body: either a Python int
or a string passed through unchanged. -/
inductive BodyVal where
  | int (n : Nat)
  | str (s : String)
deriving DecidableEq, Repr

/-- The JSON body `ClumioClient.restore` builds: only populated (truthy)
optional fields are included. -/
structure RestoreBody where
  bucket_name : Option String
  bucket_id : Option BodyVal
  object_key : Option String
deriving DecidableEq, Repr

/-- Body construction of `ClumioClient.restore`. -/
def clientRestoreBody (bucket_name bucket_id object_key : Option String) : RestoreBody :=
  { bucket_name := if truthy bucket_name then bucket_name else none
    bucket_id :=
      match bucket_id with
      | some s =>
        if s ≠ "" then
          some (if pyIsDigitStr s then BodyVal.int (natOfDigits s.data) else BodyVal.str s)
        else none
      | none => none
    object_key := if truthy object_key then object_key else none }

/-- Endpoint chosen by `ClumioClient.restore`; `none` models the
`ValueError` raised on an unknown type. -/
def clientRestoreEndpoint (restore_type : String) : Option String :=
  if restore_type = "s3" then some "/restore/aws/s3"
  else if restore_type = "ec2" then some "/restore/aws/ec2"
  else none

/-! ## ClumioClient.get_s3_bucket_objects (src/clumio_client.py lines 145-166)

The first backend request (the backups listing for the asset) is
represented by its parsed item list; the function either returns the
empty-shaped result without a second request, or issues the second
(objects) request filtered by a backup id.
-/

/-- A backup record as read by `get_s3_bucket_objects`: only the `id`
field is consulted (`latest_backup.get('id')`, `None` when absent). -/
structure BackupItem where
  id : Option String
deriving DecidableEq, Repr

/-- Outcome of `get_s3_bucket_objects` after the backups listing has been
fetched: the literal empty-shaped dict with no second request, or a second
request for the objects listing filtered by the given backup id. -/
inductive S3ObjectsOutcome where
  | emptyNoRequest
  | requestObjects (backupId : Option String)
deriving DecidableEq, Repr

/-- Control flow of `ClumioClient.get_s3_bucket_objects` given the items
of the backups listing and the optional `backup_id` argument. -/
def getS3BucketObjects (backups : List BackupItem) (backup_id : Option String) :
    S3ObjectsOutcome :=
  match backups with
  | [] => S3ObjectsOutcome.emptyNoRequest
  | latest :: _ =>
    let bid := if truthy backup_id then backup_id else latest.id
    S3ObjectsOutcome.requestObjects bid

/-! ## Inbound request shape -/

/-- An inbound HTTP request as the two endpoints see it: method, query
string multidict, best-effort-parsed JSON body, and form multidict. -/
structure Req where
  isGet : Bool
  args : List (String × String)
  jsonBody : Option (List (String × String))
  form : List (String × String)
deriving DecidableEq, Repr

/-- Flask `request.values`: combined view of query string and form, query string
taking precedence (Flask CombinedMultiDict order). -/
def Req.values (r : Req) : List (String × String) :=
  r.args ++ r.form

/-! ## /inventory parameter resolution (src/app.py lines 189-270)

The POST branch consults, in order: query string, JSON body, form fields
(including the Slack `text` mini-language), and the combined values view
(including a second `text` parse attempt).
-/

/-- The key=value loop of the `/inventory` text parse (lines 230-238 and
261-270): each token containing `'='` is split at the first `'='`, both
halves stripped; `type`/`account` are assigned only when still falsy. -/
def parseKVInventory (t a : Option String) : List String → Option String × Option String
  | [] => (t, a)
  | p :: ps =>
    if hasEq p then
      let kv := splitFirstEq p
      let k := kv.1 |> pyStrip
      let v := kv.2 |> pyStrip
      if k = "type" ∧ ¬ truthy t then parseKVInventory (some v) a ps
      else if k = "account" ∧ ¬ truthy a then parseKVInventory t (some v) ps
      else parseKVInventory t a ps
    else parseKVInventory t a ps

/-- The `/inventory` form-`text` block (lines 226-241): strip, parse
key=value tokens, then treat the whole text as a bare type shorthand when
it is exactly `s3` or `ec2` and no type was found. -/
def inventoryTextBlock (t a : Option String) (slack_text : String) :
    Option String × Option String :=
  let st := slack_text |> pyStrip
  let ta := parseKVInventory t a (pySplit st)
  let t2 := if ¬ truthy ta.1 ∧ (st = "s3" ∨ st = "ec2") then some st else ta.1
  (t2, ta.2)

/-- The `/inventory` values-`text` block (lines 254-270): bare shorthand
checked first, otherwise the key=value parse. -/
def inventoryValuesTextBlock (t a : Option String) (values_text : String) :
    Option String × Option String :=
  let vt := values_text |> pyStrip
  if (vt = "s3" ∨ vt = "ec2") ∧ ¬ truthy t then (some vt, a)
  else parseKVInventory t a (pySplit vt)

/-- Step 1 of the POST branch (lines 198-201): query string. -/
def invStepArgs (r : Req) : Option String × Option String :=
  let t := getv r.args "type"
  let a : Option String := none
  let a := if truthy a then a else getv r.args "account"
  (t, a)

/-- Step 2 (lines 204-213): JSON body, consulted only while a field is
still falsy, each field guarded independently. -/
def invStepJson (r : Req) (ta : Option String × Option String) :
    Option String × Option String :=
  if ¬ truthy ta.1 ∨ ¬ truthy ta.2 then
    match r.jsonBody with
    | some j =>
      let t := if ¬ truthy ta.1 then getv j "type" else ta.1
      let a := if ¬ truthy ta.2 then getv j "account" else ta.2
      (t, a)
    | none => ta
  else ta

/-- Step 3 (lines 216-241): form fields plus the Slack `text` field. -/
def invStepForm (r : Req) (ta : Option String × Option String) :
    Option String × Option String :=
  if r.form ≠ [] then
    let t := if ¬ truthy ta.1 then getv r.form "type" else ta.1
    let a := if ¬ truthy ta.2 then getv r.form "account" else ta.2
    let slack_text := getD r.form "text" ""
    if slack_text ≠ "" then inventoryTextBlock t a slack_text
    else (t, a)
  else ta

/-- Step 4 (lines 244-270): the combined values view, last resort. -/
def invStepValues (r : Req) (ta : Option String × Option String) :
    Option String × Option String :=
  if ¬ truthy ta.1 ∨ ¬ truthy ta.2 then
    if r.values ≠ [] then
      let t := if ¬ truthy ta.1 then getv r.values "type" else ta.1
      let a := if ¬ truthy ta.2 then getv r.values "account" else ta.2
      if ¬ truthy t ∨ ¬ truthy a then
        let values_text := getD r.values "text" ""
        if values_text ≠ "" then inventoryValuesTextBlock t a values_text
        else (t, a)
      else (t, a)
    else ta
  else ta

/-- Full `/inventory` parameter resolution: `(inventory_type,
account_native_id)` just before validation. -/
def resolveInventory (r : Req) : Option String × Option String :=
  if r.isGet then (getv r.args "type", getv r.args "account")
  else invStepValues r (invStepForm r (invStepJson r (invStepArgs r)))

/-- Outcome of the `/inventory` endpoint up to the backend call: a 400
validation failure carrying its error message, or the backend dispatch
with the validated type and account. -/
inductive InvOutcome where
  | invalidType (msg : String)
  | missingAccount (msg : String)
  | backend (ty : String) (account : Option String)
deriving DecidableEq, Repr

/-- Error message of the missing-account 400 response (line 287). -/
def invMissingAccountMsg : String :=
  "Missing required parameter: account"

/-- Defaulting of the resolved type (lines 273-276): `'s3'` when falsy. -/
def invTypeResolved (r : Req) : String :=
  let t := (resolveInventory r).1
  if truthy t then t.getD "" else "s3"

/-- Validation section of the `/inventory` endpoint (lines 272-290): type
defaulting, type whitelist, and the required-account check for s3. -/
def inventory (r : Req) : InvOutcome :=
  let ta := resolveInventory r
  let ty := invTypeResolved r
  if ty ≠ "s3" ∧ ty ≠ "ec2" then
    InvOutcome.invalidType ("Invalid type value: " ++ ty ++ ". Accepted values: s3, ec2")
  else if ty = "s3" ∧ ¬ truthy ta.2 then
    InvOutcome.missingAccount invMissingAccountMsg
  else
    InvOutcome.backend ty ta.2

/-! ## /restore parameter resolution (src/app.py lines 372-481) -/

/-- The four `/restore` parameters while being resolved. -/
structure RParams where
  ty : Option String
  bn : Option String
  bid : Option String
  ok : Option String
deriving DecidableEq, Repr

/-- The key=value loop of the `/restore` text parse (lines 423-441 and
466-481): tokens containing `'='` split at the first `'='`, both halves
stripped; each recognized key assigned only while still falsy; both
`object-key` and `object_key` spellings accepted. -/
def parseKVRestore (p : RParams) : List String → RParams
  | [] => p
  | tok :: toks =>
    if hasEq tok then
      let kv := splitFirstEq tok
      let k := kv.1 |> pyStrip
      let v := kv.2 |> pyStrip
      if k = "type" ∧ ¬ truthy p.ty then parseKVRestore { p with ty := some v } toks
      else if k = "bucket-name" ∧ ¬ truthy p.bn then parseKVRestore { p with bn := some v } toks
      else if k = "bucket-id" ∧ ¬ truthy p.bid then parseKVRestore { p with bid := some v } toks
      else if k = "object-key" ∧ ¬ truthy p.ok then parseKVRestore { p with ok := some v } toks
      else if k = "object_key" ∧ ¬ truthy p.ok then parseKVRestore { p with ok := some v } toks
      else parseKVRestore p toks
    else parseKVRestore p toks

/-- The `/restore` form-`text` block (lines 418-446): strip, key=value
parse, then the whole-text bare `s3`/`ec2` shorthand. -/
def restoreTextBlock (p : RParams) (slack_text : String) : RParams :=
  let st := slack_text |> pyStrip
  let p2 := parseKVRestore p (pySplit st)
  if ¬ truthy p2.ty ∧ (st = "s3" ∨ st = "ec2") then { p2 with ty := some st } else p2

/-- The `/restore` values-`text` block (lines 459-481): bare shorthand
checked first, otherwise the key=value parse. -/
def restoreValuesTextBlock (p : RParams) (values_text : String) : RParams :=
  let vt := values_text |> pyStrip
  if (vt = "s3" ∨ vt = "ec2") ∧ ¬ truthy p.ty then { p with ty := some vt }
  else parseKVRestore p (pySplit vt)

/-- Query-string extraction (lines 379-383 for GET, identically 390-393
for POST). -/
def restStepArgs (r : Req) : RParams :=
  { ty := getv r.args "type"
    bn := getv r.args "bucket-name"
    bid := getv r.args "bucket-id"
    ok := pyOr (getv r.args "object_key") (getv r.args "object-key") }

/-- JSON-body stage (lines 396-405): the whole block runs only while
`restore_type` is falsy; inside, each field falls back with `or`, and
both kebab-case and snake_case spellings are tried. -/
def restStepJson (r : Req) (p : RParams) : RParams :=
  if ¬ truthy p.ty then
    match r.jsonBody with
    | some d =>
      { ty := pyOr p.ty (getv d "type")
        bn := pyOr (pyOr p.bn (getv d "bucket-name")) (getv d "bucket_name")
        bid := pyOr (pyOr p.bid (getv d "bucket-id")) (getv d "bucket_id")
        ok := pyOr (pyOr p.ok (getv d "object_key")) (getv d "object-key") }
    | none => p
  else p

/-- Form stage (lines 408-446): form fields plus the Slack `text` field. -/
def restStepForm (r : Req) (p : RParams) : RParams :=
  if r.form ≠ [] then
    let p1 : RParams :=
      { ty := pyOr p.ty (getv r.form "type")
        bn := pyOr (pyOr p.bn (getv r.form "bucket-name")) (getv r.form "bucket_name")
        bid := pyOr (pyOr p.bid (getv r.form "bucket-id")) (getv r.form "bucket_id")
        ok := pyOr (pyOr p.ok (getv r.form "object_key")) (getv r.form "object-key") }
    let slack_text := getD r.form "text" ""
    if slack_text ≠ "" then restoreTextBlock p1 slack_text else p1
  else p

/-- Values stage (lines 451-481): combined view, then a second text parse
attempted only while `type` or `bucket-name` is falsy. -/
def restStepValues (r : Req) (p : RParams) : RParams :=
  if r.values ≠ [] then
    let p1 : RParams :=
      { ty := pyOr p.ty (getv r.values "type")
        bn := pyOr (pyOr p.bn (getv r.values "bucket-name")) (getv r.values "bucket_name")
        bid := pyOr (pyOr p.bid (getv r.values "bucket-id")) (getv r.values "bucket_id")
        ok := pyOr (pyOr p.ok (getv r.values "object_key")) (getv r.values "object-key") }
    if ¬ truthy p1.ty ∨ ¬ truthy p1.bn then
      let values_text := getD r.values "text" ""
      if values_text ≠ "" then restoreValuesTextBlock p1 values_text else p1
    else p1
  else p

/-- Full `/restore` parameter resolution just before validation. -/
def resolveRestore (r : Req) : RParams :=
  if r.isGet then restStepArgs r
  else restStepValues r (restStepForm r (restStepJson r (restStepArgs r)))

/-- Outcome of the `/restore` endpoint up to the backend call. -/
inductive RestOutcome where
  | missingType (msg : String)
  | invalidType (msg : String)
  | invalidBucketId (msg : String)
  | backend (ty : String) (bn bid ok : Option String)
deriving DecidableEq, Repr

/-- Error message of the non-numeric bucket-id 400 response (line 525). -/
def restBucketIdMsg : String :=
  "bucket-id must be a numeric value (string format)"

/-- Validation section of the `/restore` endpoint (lines 493-548):
required type, type whitelist, and the `int(bucket_id)`-based numeric
check applied whenever `bucket_id is not None`. -/
def restore (r : Req) : RestOutcome :=
  let p := resolveRestore r
  if ¬ truthy p.ty then RestOutcome.missingType "Missing required parameter: type"
  else
    let ty := p.ty.getD ""
    if ty ≠ "s3" ∧ ty ≠ "ec2" then
      RestOutcome.invalidType ("Invalid type value: " ++ ty ++ ". Accepted values: s3, ec2")
    else
      match p.bid with
      | some s =>
        if pyIntOk s then RestOutcome.backend ty p.bn p.bid p.ok
        else RestOutcome.invalidBucketId restBucketIdMsg
      | none => RestOutcome.backend ty p.bn p.bid p.ok

/-! ## Slash-command text parse (handle_inventory_command, src/app.py
lines 918-943)

```python
parts = text.split()
for part in parts:
    if "=" in part:
        key, value = part.split("=", 1)
        ...
        if key == "type":
            inventory_type = value
        elif key == "account":
            account_native_id = value
    else:
        if not inventory_type:
            inventory_type = part.strip()
```
Unlike the `/inventory` endpoint loop, the key=value assignments carry no
falsiness guard, and any bare token is taken as the type.
-/

/-- The key=value loop of `handle_inventory_command`. -/
def parseKVCommand (t a : Option String) : List String → Option String × Option String
  | [] => (t, a)
  | p :: ps =>
    if hasEq p then
      let kv := splitFirstEq p
      let k := kv.1 |> pyStrip
      let v := kv.2 |> pyStrip
      if k = "type" then parseKVCommand (some v) a ps
      else if k = "account" then parseKVCommand t (some v) ps
      else parseKVCommand t a ps
    else
      if ¬ truthy t then parseKVCommand (some (pyStrip p)) a ps
      else parseKVCommand t a ps

/-- Full text handling of `handle_inventory_command` (lines 918-939):
strip, then the loop; nothing when the stripped text is empty. -/
def commandTextParse (text : String) : Option String × Option String :=
  let t := text |> pyStrip
  if t ≠ "" then parseKVCommand none none (pySplit t) else (none, none)

/-! ## /interactive endpoint control flow (slack_interactive, src/app.py
lines 583-906)

Event trace of the synchronous request handler (the main thread only):
the deferred backup fetch of the background thread is represented by the
`spawnBackground` event that creates it.  An action's button `value` is
represented by the result of `json.loads` on it — `none` when decoding
raises, otherwise the `(id, bucket-id, bucket-name)` triple read with the
handler's `.get` defaults.  `backendOk` models whether the synchronous
`get_s3_asset_backups` call in the view_bucket branch returns (rather
than raises); `botToken` models the presence of SLACK_BOT_TOKEN.
-/

/-- One entry of the payload's `actions` array. -/
structure IAction where
  actionId : String
  decoded : Option (String × String × String)
deriving DecidableEq, Repr

/-- The interaction payload as the handler reads it. -/
structure IPayload where
  hasPayload : Bool
  parses : Bool
  actions : List IAction
  hasTrigger : Bool
  hasResponseUrl : Bool
deriving DecidableEq, Repr

/-- Observable events of the synchronous handler. -/
inductive IEvent where
  /-- A Clumio backend call (`get_s3_asset_backups`). -/
  | clumioBackups
  /-- The Slack `views.open` call for the modal. -/
  | slackModalOpen
  /-- A post to the interaction's `response_url`. -/
  | postResponseUrl
  /-- Creation of the background update thread. -/
  | spawnBackground
  /-- The empty acknowledgment response (`jsonify({}), 200`). -/
  | ackEmpty
  /-- A non-empty 200 response carrying an error text. -/
  | respondText
deriving DecidableEq, Repr

/-- The common tail from line 756 on: re-decode the value, post decode or
missing-id errors to the response_url when present, otherwise spawn the
background update thread, then acknowledge. -/
def fallThroughEvents (p : IPayload) (a : IAction) : List IEvent :=
  match a.decoded with
  | none => (if p.hasResponseUrl then [IEvent.postResponseUrl] else []) ++ [IEvent.ackEmpty]
  | some (id, _, _) =>
    if id = "" then
      (if p.hasResponseUrl then [IEvent.postResponseUrl] else []) ++ [IEvent.ackEmpty]
    else
      (if p.hasResponseUrl then [IEvent.spawnBackground] else []) ++ [IEvent.ackEmpty]

/-- Synchronous event trace of the `/interactive` handler. -/
def slackInteractiveTrace (p : IPayload) (backendOk botToken : Bool) : List IEvent :=
  if ¬ p.hasPayload then [IEvent.respondText]
  else if ¬ p.parses then [IEvent.respondText]
  else
    match p.actions with
    | [] => [IEvent.ackEmpty]
    | a :: _ =>
      if a.actionId = "view_bucket" ∧ p.hasTrigger then
        match a.decoded with
        | some _ =>
          if backendOk then
            IEvent.clumioBackups ::
              ((if botToken then [IEvent.slackModalOpen] else []) ++ [IEvent.ackEmpty])
          else
            IEvent.clumioBackups :: fallThroughEvents p a
        | none => fallThroughEvents p a
      else fallThroughEvents p a

/-- Whether an event is the HTTP response of the handler. -/
def isResponse : IEvent → Bool
  | IEvent.ackEmpty => true
  | IEvent.respondText => true
  | _ => false

/-- A Clumio backend call occurs on the execution path that precedes
sending the response. -/
def backendBeforeResponse (tr : List IEvent) : Bool :=
  (tr.takeWhile (fun e => ¬ isResponse e)).contains IEvent.clumioBackups

/-! ## Button value JSON round trip

Modelled from the Python builtins used by src/app.py: `json.dumps` with
its defaults (`ensure_ascii=True`, separators item/key of comma-space and
colon-space) on the flat string-valued dict built by `get_inventory_data`,
and `json.loads` restricted to such flat string objects.  Lean strings are
sequences of Unicode scalar values, so the model covers exactly the
well-formed Python strings (lone surrogates are unrepresentable).
-/

/-- The double-quote character. -/
def quoteChar : Char := Char.ofNat 34

/-- The backslash character. -/
def backslashChar : Char := Char.ofNat 92

/-- The opening-brace character. -/
def lbraceChar : Char := Char.ofNat 123

/-- The closing-brace character. -/
def rbraceChar : Char := Char.ofNat 125

/-- Lower-case hexadecimal digit character for a value below 16. -/
def hexDigitChar : Nat → Char
  | 0 => '0' | 1 => '1' | 2 => '2' | 3 => '3' | 4 => '4'
  | 5 => '5' | 6 => '6' | 7 => '7' | 8 => '8' | 9 => '9'
  | 10 => 'a' | 11 => 'b' | 12 => 'c' | 13 => 'd' | 14 => 'e' | 15 => 'f'
  | _ => '0'

/-- Value of a hexadecimal digit character (both cases accepted on the
decoding side, as `json.loads` does). -/
def hexVal (c : Char) : Option Nat :=
  if 48 ≤ c.toNat ∧ c.toNat ≤ 57 then some (c.toNat - 48)
  else if 97 ≤ c.toNat ∧ c.toNat ≤ 102 then some (c.toNat - 87)
  else if 65 ≤ c.toNat ∧ c.toNat ≤ 70 then some (c.toNat - 55)
  else none

/-- Four-digit lower-case hexadecimal rendering of a value below 65536. -/
def hex4 (n : Nat) : List Char :=
  [hexDigitChar (n / 4096 % 16), hexDigitChar (n / 256 % 16),
    hexDigitChar (n / 16 % 16), hexDigitChar (n % 16)]

/-- A backslash-u escape sequence. -/
def uEsc (n : Nat) : List Char :=
  backslashChar :: 'u' :: hex4 n

/-- Python `json.dumps` escaping of one character (ensure_ascii mode): quote and
backslash escaped, the five short control escapes, other characters
outside printable ASCII as backslash-u sequences (a surrogate pair above
the basic plane), everything else literal. -/
def escapeChar (c : Char) : List Char :=
  if c = quoteChar then [backslashChar, quoteChar]
  else if c = backslashChar then [backslashChar, backslashChar]
  else if c = Char.ofNat 8 then [backslashChar, 'b']
  else if c = Char.ofNat 9 then [backslashChar, 't']
  else if c = Char.ofNat 10 then [backslashChar, 'n']
  else if c = Char.ofNat 12 then [backslashChar, 'f']
  else if c = Char.ofNat 13 then [backslashChar, 'r']
  else if c.toNat < 32 ∨ 126 < c.toNat then
    if c.toNat < 65536 then uEsc c.toNat
    else uEsc (55296 + (c.toNat - 65536) / 1024) ++ uEsc (56320 + (c.toNat - 65536) % 1024)
  else [c]

/-- Escaping of a character sequence. -/
def escapeList : List Char → List Char
  | [] => []
  | c :: cs => escapeChar c ++ escapeList cs

/-- Python `json.dumps` rendering of a string: quoted and escaped. -/
def encodeString (s : String) : List Char :=
  quoteChar :: escapeList s.data ++ [quoteChar]

/-- Read four hexadecimal digit characters. -/
def readHex4 : List Char → Option (Nat × List Char)
  | h1 :: h2 :: h3 :: h4 :: rest =>
    match hexVal h1, hexVal h2, hexVal h3, hexVal h4 with
    | some x1, some x2, some x3, some x4 => some (4096 * x1 + 256 * x2 + 16 * x3 + x4, rest)
    | _, _, _, _ => none
  | _ => none

/-- Decode the payload of a backslash-u escape, combining a surrogate
pair into one scalar value (a lone surrogate escape is rejected, being
unrepresentable as a scalar value). -/
def decodeUEsc (l : List Char) : Option (Char × List Char) :=
  match readHex4 l with
  | none => none
  | some (n, rest2) =>
    if 55296 ≤ n ∧ n < 56320 then
      match rest2 with
      | b1 :: u1 :: rest2a =>
        if b1 = backslashChar ∧ u1 = 'u' then
          match readHex4 rest2a with
          | some (m, rest3) =>
            if 56320 ≤ m ∧ m < 57344 then
              some (Char.ofNat (65536 + (n - 55296) * 1024 + (m - 56320)), rest3)
            else none
          | none => none
        else none
      | _ => none
    else if 56320 ≤ n ∧ n < 57344 then none
    else some (Char.ofNat n, rest2)

/-- Decode what follows a backslash in a JSON string: the literal
escapes, the short control escapes, or a backslash-u sequence. -/
def decodeEscape : List Char → Option (Char × List Char)
  | [] => none
  | e :: rest =>
    if e = quoteChar ∨ e = backslashChar ∨ e = '/' then some (e, rest)
    else if e = 'b' then some (Char.ofNat 8, rest)
    else if e = 't' then some (Char.ofNat 9, rest)
    else if e = 'n' then some (Char.ofNat 10, rest)
    else if e = 'f' then some (Char.ofNat 12, rest)
    else if e = 'r' then some (Char.ofNat 13, rest)
    else if e = 'u' then decodeUEsc rest
    else none

/-- Python `json.loads` string-body scanning: consume characters and escape
sequences into the accumulator until the closing quote; the fuel bounds
the number of decoded characters. -/
def parseStrF : Nat → List Char → List Char → Option (List Char × List Char)
  | 0, _, _ => none
  | _ + 1, _, [] => none
  | fuel + 1, acc, c :: rest =>
    if c = quoteChar then some (acc.reverse, rest)
    else if c = backslashChar then
      match decodeEscape rest with
      | some (d, rest2) => parseStrF fuel (d :: acc) rest2
      | none => none
    else parseStrF fuel (c :: acc) rest

/-- Python `json.loads` string parsing: an opening quote then the body scan
(the input length bounds the number of decoded characters). -/
def parseJString : List Char → Option (List Char × List Char)
  | [] => none
  | c :: rest => if c = quoteChar then parseStrF (rest.length + 1) [] rest else none

/-- Skip JSON whitespace. -/
def skipWs : List Char → List Char
  | [] => []
  | c :: rest =>
    if c = ' ' ∨ c = Char.ofNat 9 ∨ c = Char.ofNat 10 ∨ c = Char.ofNat 13 then skipWs rest
    else c :: rest

/-- Parse the members of a flat string-valued JSON object, up to and
including the closing brace; fuel bounds the number of members. -/
def parseMembers : Nat → List Char → Option (List (String × String) × List Char)
  | 0, _ => none
  | fuel + 1, l =>
    match parseJString (skipWs l) with
    | none => none
    | some (k, r1) =>
      match skipWs r1 with
      | [] => none
      | c :: r2 =>
        if c = ':' then
          match parseJString (skipWs r2) with
          | none => none
          | some (v, r3) =>
            match skipWs r3 with
            | [] => none
            | c2 :: r4 =>
              if c2 = ',' then
                match parseMembers fuel r4 with
                | some (ms, r5) => some ((String.mk k, String.mk v) :: ms, r5)
                | none => none
              else if c2 = rbraceChar then some ([(String.mk k, String.mk v)], r4)
              else none
        else none

/-- Python `json.loads` restricted to a flat string-valued object document. -/
def loadsFlatObject (l : List Char) : Option (List (String × String)) :=
  match skipWs l with
  | [] => none
  | c :: rest =>
    if c = lbraceChar then
      match skipWs rest with
      | [] => none
      | c2 :: rest2 =>
        if c2 = rbraceChar then
          if skipWs rest2 = [] then some [] else none
        else
          match parseMembers (l.length + 3) rest with
          | some (ms, r) => if skipWs r = [] then some ms else none
          | none => none
    else none

/-- Python dict lookup with default over the parsed member list: later
bindings of a key overwrite earlier ones. -/
def pyDictGet (ms : List (String × String)) (k d : String) : String :=
  match ms.reverse.find? (fun p => p.1 = k) with
  | some p => p.2
  | none => d

/-- The s3 inventory projection built by `get_inventory_data`
(src/app.py lines 51-58): the three retained fields. -/
structure InventoryItem where
  id : String
  bucketId : String
  bucketName : String
deriving DecidableEq, Repr

/-- Body of `json.dumps` applied to the projected item dict, in its
insertion order `id`, `bucket-id`, `bucket-name`. -/
def dumpsBody (it : InventoryItem) : List Char :=
  encodeString "id" ++ [':', ' '] ++ encodeString it.id
    ++ [',', ' '] ++ encodeString "bucket-id" ++ [':', ' '] ++ encodeString it.bucketId
    ++ [',', ' '] ++ encodeString "bucket-name" ++ [':', ' '] ++ encodeString it.bucketName

/-- The button `value` string built at src/app.py line 115:
`json.dumps(item)`. -/
def dumpsItem (it : InventoryItem) : List Char :=
  lbraceChar :: dumpsBody it ++ [rbraceChar]

/-- Decoding of a button value as done at src/app.py lines 757-761:
`json.loads` then the three `.get` reads with their defaults, returned as
the `(id, bucket-id, bucket-name)` triple. -/
def decodeButtonValue (l : List Char) : Option (String × String × String) :=
  match loadsFlatObject l with
  | some ms => some (pyDictGet ms "id" "", pyDictGet ms "bucket-id" "", pyDictGet ms "bucket-name" "Unknown")
  | none => none

/-! ## Helper lemmas -/

theorem pyOr_of_truthy {a : Option String} (b : Option String) (h : truthy a) :
    pyOr a b = a := by
  simp [pyOr, h]

theorem truthy_pyOr {a : Option String} (b : Option String) (h : truthy a) :
    truthy (pyOr a b) := by
  rw [pyOr_of_truthy b h]; exact h

theorem parseKVInventory_fst (ps : List String) :
    ∀ t a, truthy t → (parseKVInventory t a ps).1 = t := by
  induction ps with
  | nil => intro t a _; rfl
  | cons p ps ih =>
    intro t a ht
    simp only [parseKVInventory]
    repeat' split
    all_goals first
      | exact ih _ _ ht
      | (rename_i hc; exact absurd ht hc.2)

theorem parseKVInventory_snd (ps : List String) :
    ∀ t a, truthy a → (parseKVInventory t a ps).2 = a := by
  induction ps with
  | nil => intro t a _; rfl
  | cons p ps ih =>
    intro t a ha
    simp only [parseKVInventory]
    repeat' split
    all_goals first
      | exact ih _ _ ha
      | (rename_i hc; exact absurd ha hc.2)

theorem inventoryTextBlock_fst (t a : Option String) (s : String) (h : truthy t) :
    (inventoryTextBlock t a s).1 = t := by
  have hfst := parseKVInventory_fst (pySplit (pyStrip s)) t a h
  simp [inventoryTextBlock, hfst, h]

theorem inventoryTextBlock_snd (t a : Option String) (s : String) (h : truthy a) :
    (inventoryTextBlock t a s).2 = a := by
  have hsnd := parseKVInventory_snd (pySplit (pyStrip s)) t a h
  simp [inventoryTextBlock, hsnd]

theorem inventoryValuesTextBlock_fst (t a : Option String) (s : String) (h : truthy t) :
    (inventoryValuesTextBlock t a s).1 = t := by
  have hfst := parseKVInventory_fst (pySplit (pyStrip s)) t a h
  simp [inventoryValuesTextBlock, hfst, h]

theorem inventoryValuesTextBlock_snd (t a : Option String) (s : String) (h : truthy a) :
    (inventoryValuesTextBlock t a s).2 = a := by
  have hsnd := parseKVInventory_snd (pySplit (pyStrip s)) t a h
  simp only [inventoryValuesTextBlock]
  split
  · rfl
  · exact hsnd

theorem parseKVRestore_ty (toks : List String) :
    ∀ p, truthy p.ty → (parseKVRestore p toks).ty = p.ty := by
  induction toks with
  | nil => intro p _; rfl
  | cons tok toks ih =>
    intro p h
    simp only [parseKVRestore]
    repeat' split
    all_goals first
      | exact ih _ h
      | (rename_i hc; exact absurd h hc.2)

theorem parseKVRestore_bn (toks : List String) :
    ∀ p, truthy p.bn → (parseKVRestore p toks).bn = p.bn := by
  induction toks with
  | nil => intro p _; rfl
  | cons tok toks ih =>
    intro p h
    simp only [parseKVRestore]
    repeat' split
    all_goals first
      | exact ih _ h
      | (rename_i hc; exact absurd h hc.2)

theorem parseKVRestore_bid (toks : List String) :
    ∀ p, truthy p.bid → (parseKVRestore p toks).bid = p.bid := by
  induction toks with
  | nil => intro p _; rfl
  | cons tok toks ih =>
    intro p h
    simp only [parseKVRestore]
    repeat' split
    all_goals first
      | exact ih _ h
      | (rename_i hc; exact absurd h hc.2)

theorem parseKVRestore_ok (toks : List String) :
    ∀ p, truthy p.ok → (parseKVRestore p toks).ok = p.ok := by
  induction toks with
  | nil => intro p _; rfl
  | cons tok toks ih =>
    intro p h
    simp only [parseKVRestore]
    repeat' split
    all_goals first
      | exact ih _ h
      | (rename_i hc; exact absurd h hc.2)

theorem restoreTextBlock_ty (p : RParams) (s : String) (h : truthy p.ty) :
    (restoreTextBlock p s).ty = p.ty := by
  have hf := parseKVRestore_ty (pySplit (pyStrip s)) p h
  simp [restoreTextBlock, hf, h]

theorem restoreTextBlock_bn (p : RParams) (s : String) (h : truthy p.bn) :
    (restoreTextBlock p s).bn = p.bn := by
  have hf := parseKVRestore_bn (pySplit (pyStrip s)) p h
  simp only [restoreTextBlock]
  split
  · exact hf
  · exact hf

theorem restoreTextBlock_bid (p : RParams) (s : String) (h : truthy p.bid) :
    (restoreTextBlock p s).bid = p.bid := by
  have hf := parseKVRestore_bid (pySplit (pyStrip s)) p h
  simp only [restoreTextBlock]
  split
  · exact hf
  · exact hf

theorem restoreTextBlock_ok (p : RParams) (s : String) (h : truthy p.ok) :
    (restoreTextBlock p s).ok = p.ok := by
  have hf := parseKVRestore_ok (pySplit (pyStrip s)) p h
  simp only [restoreTextBlock]
  split
  · exact hf
  · exact hf

theorem restoreValuesTextBlock_ty (p : RParams) (s : String) (h : truthy p.ty) :
    (restoreValuesTextBlock p s).ty = p.ty := by
  have hf := parseKVRestore_ty (pySplit (pyStrip s)) p h
  simp [restoreValuesTextBlock, hf, h]

theorem restoreValuesTextBlock_bn (p : RParams) (s : String) (h : truthy p.bn) :
    (restoreValuesTextBlock p s).bn = p.bn := by
  have hf := parseKVRestore_bn (pySplit (pyStrip s)) p h
  simp only [restoreValuesTextBlock]
  split
  · rfl
  · exact hf

theorem restoreValuesTextBlock_bid (p : RParams) (s : String) (h : truthy p.bid) :
    (restoreValuesTextBlock p s).bid = p.bid := by
  have hf := parseKVRestore_bid (pySplit (pyStrip s)) p h
  simp only [restoreValuesTextBlock]
  split
  · rfl
  · exact hf

theorem restoreValuesTextBlock_ok (p : RParams) (s : String) (h : truthy p.ok) :
    (restoreValuesTextBlock p s).ok = p.ok := by
  have hf := parseKVRestore_ok (pySplit (pyStrip s)) p h
  simp only [restoreValuesTextBlock]
  split
  · rfl
  · exact hf

theorem invStepJson_fst (r : Req) (ta : Option String × Option String)
    (h : truthy ta.1) : (invStepJson r ta).1 = ta.1 := by
  unfold invStepJson
  split
  · cases r.jsonBody with
    | none => rfl
    | some j => simp [h]
  · rfl

theorem invStepJson_snd (r : Req) (ta : Option String × Option String)
    (h : truthy ta.2) : (invStepJson r ta).2 = ta.2 := by
  unfold invStepJson
  split
  · cases r.jsonBody with
    | none => rfl
    | some j => simp [h]
  · rfl

theorem invStepJson_pickup (r : Req) (ta : Option String × Option String)
    (j : List (String × String)) (h2 : ¬ truthy ta.2) (hj : r.jsonBody = some j) :
    (invStepJson r ta).2 = getv j "account" := by
  unfold invStepJson
  rw [if_pos (Or.inr h2), hj]
  simp [h2]

theorem invStepForm_fst (r : Req) (ta : Option String × Option String)
    (h : truthy ta.1) : (invStepForm r ta).1 = ta.1 := by
  unfold invStepForm
  split
  · simp only [h, not_true_eq_false, Bool.false_eq_true, if_false]
    split
    · exact inventoryTextBlock_fst _ _ _ h
    · rfl
  · rfl

theorem invStepForm_snd (r : Req) (ta : Option String × Option String)
    (h : truthy ta.2) : (invStepForm r ta).2 = ta.2 := by
  unfold invStepForm
  split
  · simp only [h, not_true_eq_false, Bool.false_eq_true, if_false]
    split
    · exact inventoryTextBlock_snd _ _ _ h
    · rfl
  · rfl

theorem invStepValues_fst (r : Req) (ta : Option String × Option String)
    (h : truthy ta.1) : (invStepValues r ta).1 = ta.1 := by
  unfold invStepValues
  repeat' split
  all_goals first
    | rfl
    | (simp only [h, not_true_eq_false, Bool.false_eq_true, if_false]
       repeat' split
       all_goals first
         | rfl
         | exact inventoryValuesTextBlock_fst _ _ _ h)

theorem invStepValues_snd (r : Req) (ta : Option String × Option String)
    (h : truthy ta.2) : (invStepValues r ta).2 = ta.2 := by
  unfold invStepValues
  repeat' split
  all_goals first
    | rfl
    | (simp only [h, not_true_eq_false, Bool.false_eq_true, if_false]
       repeat' split
       all_goals first
         | rfl
         | exact inventoryValuesTextBlock_snd _ _ _ h)

theorem resolveInventory_fst_args (r : Req) (h : truthy (getv r.args "type")) :
    (resolveInventory r).1 = getv r.args "type" := by
  have h1 : (invStepArgs r).1 = getv r.args "type" := rfl
  have t1 : truthy (invStepArgs r).1 := by rw [h1]; exact h
  have h2 := invStepJson_fst r (invStepArgs r) t1
  have t2 : truthy (invStepJson r (invStepArgs r)).1 := by rw [h2]; exact t1
  have h3 := invStepForm_fst r (invStepJson r (invStepArgs r)) t2
  have t3 : truthy (invStepForm r (invStepJson r (invStepArgs r))).1 := by rw [h3]; exact t2
  have h4 := invStepValues_fst r (invStepForm r (invStepJson r (invStepArgs r))) t3
  unfold resolveInventory
  split
  · rfl
  · rw [h4, h3, h2, h1]

theorem resolveInventory_snd_args (r : Req) (h : truthy (getv r.args "account")) :
    (resolveInventory r).2 = getv r.args "account" := by
  have h1 : (invStepArgs r).2 = getv r.args "account" := rfl
  have t1 : truthy (invStepArgs r).2 := by rw [h1]; exact h
  have h2 := invStepJson_snd r (invStepArgs r) t1
  have t2 : truthy (invStepJson r (invStepArgs r)).2 := by rw [h2]; exact t1
  have h3 := invStepForm_snd r (invStepJson r (invStepArgs r)) t2
  have t3 : truthy (invStepForm r (invStepJson r (invStepArgs r))).2 := by rw [h3]; exact t2
  have h4 := invStepValues_snd r (invStepForm r (invStepJson r (invStepArgs r))) t3
  unfold resolveInventory
  split
  · rfl
  · rw [h4, h3, h2, h1]

theorem resolveInventory_json_account (r : Req) (j : List (String × String))
    (hpost : r.isGet = false) (hna : ¬ truthy (getv r.args "account"))
    (hj : r.jsonBody = some j) (hacc : truthy (getv j "account")) :
    (resolveInventory r).2 = getv j "account" := by
  have h1 : (invStepArgs r).2 = getv r.args "account" := rfl
  have h2 := invStepJson_pickup r (invStepArgs r) j (by rw [h1]; exact hna) hj
  have t2 : truthy (invStepJson r (invStepArgs r)).2 := by rw [h2]; exact hacc
  have h3 := invStepForm_snd r (invStepJson r (invStepArgs r)) t2
  have t3 : truthy (invStepForm r (invStepJson r (invStepArgs r))).2 := by rw [h3]; exact t2
  have h4 := invStepValues_snd r (invStepForm r (invStepJson r (invStepArgs r))) t3
  unfold resolveInventory
  rw [if_neg (by simp [hpost]), h4, h3, h2]

theorem restStepJson_ty (r : Req) (p : RParams) (h : truthy p.ty) :
    restStepJson r p = p := by
  unfold restStepJson
  simp [h]

theorem restStepJson_bn (r : Req) (p : RParams) (h : truthy p.bn) :
    (restStepJson r p).bn = p.bn := by
  unfold restStepJson
  split
  · cases r.jsonBody with
    | none => rfl
    | some j => simp [pyOr_of_truthy _ (truthy_pyOr _ h), pyOr_of_truthy _ h]
  · rfl

theorem restStepJson_bid (r : Req) (p : RParams) (h : truthy p.bid) :
    (restStepJson r p).bid = p.bid := by
  unfold restStepJson
  split
  · cases r.jsonBody with
    | none => rfl
    | some j => simp [pyOr_of_truthy _ (truthy_pyOr _ h), pyOr_of_truthy _ h]
  · rfl

theorem restStepJson_ok (r : Req) (p : RParams) (h : truthy p.ok) :
    (restStepJson r p).ok = p.ok := by
  unfold restStepJson
  split
  · cases r.jsonBody with
    | none => rfl
    | some j => simp [pyOr_of_truthy _ (truthy_pyOr _ h), pyOr_of_truthy _ h]
  · rfl

theorem restStepForm_ty (r : Req) (p : RParams) (h : truthy p.ty) :
    (restStepForm r p).ty = p.ty := by
  simp only [restStepForm]
  split
  · split
    · rw [restoreTextBlock_ty _ _ (by simpa [pyOr_of_truthy _ h] using h)]
      exact pyOr_of_truthy _ h
    · exact pyOr_of_truthy _ h
  · rfl

theorem restStepForm_bn (r : Req) (p : RParams) (h : truthy p.bn) :
    (restStepForm r p).bn = p.bn := by
  have hb : pyOr (pyOr p.bn (getv r.form "bucket-name")) (getv r.form "bucket_name") = p.bn := by
    rw [pyOr_of_truthy _ (truthy_pyOr _ h), pyOr_of_truthy _ h]
  simp only [restStepForm]
  split
  · split
    · rw [restoreTextBlock_bn _ _ (by rw [hb]; exact h)]
      exact hb
    · exact hb
  · rfl

theorem restStepForm_bid (r : Req) (p : RParams) (h : truthy p.bid) :
    (restStepForm r p).bid = p.bid := by
  have hb : pyOr (pyOr p.bid (getv r.form "bucket-id")) (getv r.form "bucket_id") = p.bid := by
    rw [pyOr_of_truthy _ (truthy_pyOr _ h), pyOr_of_truthy _ h]
  simp only [restStepForm]
  split
  · split
    · rw [restoreTextBlock_bid _ _ (by rw [hb]; exact h)]
      exact hb
    · exact hb
  · rfl

theorem restStepForm_ok (r : Req) (p : RParams) (h : truthy p.ok) :
    (restStepForm r p).ok = p.ok := by
  have hb : pyOr (pyOr p.ok (getv r.form "object_key")) (getv r.form "object-key") = p.ok := by
    rw [pyOr_of_truthy _ (truthy_pyOr _ h), pyOr_of_truthy _ h]
  simp only [restStepForm]
  split
  · split
    · rw [restoreTextBlock_ok _ _ (by rw [hb]; exact h)]
      exact hb
    · exact hb
  · rfl

theorem restStepValues_ty (r : Req) (p : RParams) (h : truthy p.ty) :
    (restStepValues r p).ty = p.ty := by
  simp only [restStepValues]
  split
  · split
    · split
      · rw [restoreValuesTextBlock_ty _ _ (by simpa [pyOr_of_truthy _ h] using h)]
        exact pyOr_of_truthy _ h
      · exact pyOr_of_truthy _ h
    · exact pyOr_of_truthy _ h
  · rfl

theorem restStepValues_bn (r : Req) (p : RParams) (h : truthy p.bn) :
    (restStepValues r p).bn = p.bn := by
  have hb : pyOr (pyOr p.bn (getv r.values "bucket-name")) (getv r.values "bucket_name") = p.bn := by
    rw [pyOr_of_truthy _ (truthy_pyOr _ h), pyOr_of_truthy _ h]
  simp only [restStepValues]
  split
  · split
    · split
      · rw [restoreValuesTextBlock_bn _ _ (by rw [hb]; exact h)]
        exact hb
      · exact hb
    · exact hb
  · rfl

theorem restStepValues_bid (r : Req) (p : RParams) (h : truthy p.bid) :
    (restStepValues r p).bid = p.bid := by
  have hb : pyOr (pyOr p.bid (getv r.values "bucket-id")) (getv r.values "bucket_id") = p.bid := by
    rw [pyOr_of_truthy _ (truthy_pyOr _ h), pyOr_of_truthy _ h]
  simp only [restStepValues]
  split
  · split
    · split
      · rw [restoreValuesTextBlock_bid _ _ (by rw [hb]; exact h)]
        exact hb
      · exact hb
    · exact hb
  · rfl

theorem restStepValues_ok (r : Req) (p : RParams) (h : truthy p.ok) :
    (restStepValues r p).ok = p.ok := by
  have hb : pyOr (pyOr p.ok (getv r.values "object_key")) (getv r.values "object-key") = p.ok := by
    rw [pyOr_of_truthy _ (truthy_pyOr _ h), pyOr_of_truthy _ h]
  simp only [restStepValues]
  split
  · split
    · split
      · rw [restoreValuesTextBlock_ok _ _ (by rw [hb]; exact h)]
        exact hb
      · exact hb
    · exact hb
  · rfl

theorem resolveRestore_ty_args (r : Req) (h : truthy (getv r.args "type")) :
    (resolveRestore r).ty = getv r.args "type" := by
  have h1 : (restStepArgs r).ty = getv r.args "type" := rfl
  have t1 : truthy (restStepArgs r).ty := by rw [h1]; exact h
  have h2 : (restStepJson r (restStepArgs r)).ty = getv r.args "type" := by
    rw [restStepJson_ty r _ t1, h1]
  have t2 : truthy (restStepJson r (restStepArgs r)).ty := by rw [h2]; exact h
  have h3 := restStepForm_ty r (restStepJson r (restStepArgs r)) t2
  have t3 : truthy (restStepForm r (restStepJson r (restStepArgs r))).ty := by
    rw [h3]; exact t2
  have h4 := restStepValues_ty r (restStepForm r (restStepJson r (restStepArgs r))) t3
  unfold resolveRestore
  split
  · rfl
  · rw [h4, h3, h2]

theorem resolveRestore_bn_args (r : Req) (h : truthy (getv r.args "bucket-name")) :
    (resolveRestore r).bn = getv r.args "bucket-name" := by
  have h1 : (restStepArgs r).bn = getv r.args "bucket-name" := rfl
  have t1 : truthy (restStepArgs r).bn := by rw [h1]; exact h
  have h2 : (restStepJson r (restStepArgs r)).bn = getv r.args "bucket-name" := by
    rw [restStepJson_bn r _ t1, h1]
  have t2 : truthy (restStepJson r (restStepArgs r)).bn := by rw [h2]; exact h
  have h3 := restStepForm_bn r (restStepJson r (restStepArgs r)) t2
  have t3 : truthy (restStepForm r (restStepJson r (restStepArgs r))).bn := by
    rw [h3]; exact t2
  have h4 := restStepValues_bn r (restStepForm r (restStepJson r (restStepArgs r))) t3
  unfold resolveRestore
  split
  · rfl
  · rw [h4, h3, h2]

theorem resolveRestore_bid_args (r : Req) (h : truthy (getv r.args "bucket-id")) :
    (resolveRestore r).bid = getv r.args "bucket-id" := by
  have h1 : (restStepArgs r).bid = getv r.args "bucket-id" := rfl
  have t1 : truthy (restStepArgs r).bid := by rw [h1]; exact h
  have h2 : (restStepJson r (restStepArgs r)).bid = getv r.args "bucket-id" := by
    rw [restStepJson_bid r _ t1, h1]
  have t2 : truthy (restStepJson r (restStepArgs r)).bid := by rw [h2]; exact h
  have h3 := restStepForm_bid r (restStepJson r (restStepArgs r)) t2
  have t3 : truthy (restStepForm r (restStepJson r (restStepArgs r))).bid := by
    rw [h3]; exact t2
  have h4 := restStepValues_bid r (restStepForm r (restStepJson r (restStepArgs r))) t3
  unfold resolveRestore
  split
  · rfl
  · rw [h4, h3, h2]

theorem resolveRestore_ok_args (r : Req) (h : truthy ((restStepArgs r).ok)) :
    (resolveRestore r).ok = (restStepArgs r).ok := by
  have h2 : (restStepJson r (restStepArgs r)).ok = (restStepArgs r).ok :=
    restStepJson_ok r _ h
  have t2 : truthy (restStepJson r (restStepArgs r)).ok := by rw [h2]; exact h
  have h3 := restStepForm_ok r (restStepJson r (restStepArgs r)) t2
  have t3 : truthy (restStepForm r (restStepJson r (restStepArgs r))).ok := by
    rw [h3]; exact t2
  have h4 := restStepValues_ok r (restStepForm r (restStepJson r (restStepArgs r))) t3
  unfold resolveRestore
  split
  · rfl
  · rw [h4, h3, h2]

theorem resolveInventory_fst_afterJson (r : Req) (hpost : r.isGet = false)
    (h : truthy (invStepJson r (invStepArgs r)).1) :
    (resolveInventory r).1 = (invStepJson r (invStepArgs r)).1 := by
  have h3 := invStepForm_fst r (invStepJson r (invStepArgs r)) h
  have t3 : truthy (invStepForm r (invStepJson r (invStepArgs r))).1 := by rw [h3]; exact h
  have h4 := invStepValues_fst r (invStepForm r (invStepJson r (invStepArgs r))) t3
  unfold resolveInventory
  rw [if_neg (by simp [hpost]), h4, h3]

theorem resolveInventory_snd_afterJson (r : Req) (hpost : r.isGet = false)
    (h : truthy (invStepJson r (invStepArgs r)).2) :
    (resolveInventory r).2 = (invStepJson r (invStepArgs r)).2 := by
  have h3 := invStepForm_snd r (invStepJson r (invStepArgs r)) h
  have t3 : truthy (invStepForm r (invStepJson r (invStepArgs r))).2 := by rw [h3]; exact h
  have h4 := invStepValues_snd r (invStepForm r (invStepJson r (invStepArgs r))) t3
  unfold resolveInventory
  rw [if_neg (by simp [hpost]), h4, h3]

theorem resolveInventory_fst_afterForm (r : Req) (hpost : r.isGet = false)
    (h : truthy (invStepForm r (invStepJson r (invStepArgs r))).1) :
    (resolveInventory r).1 = (invStepForm r (invStepJson r (invStepArgs r))).1 := by
  have h4 := invStepValues_fst r (invStepForm r (invStepJson r (invStepArgs r))) h
  unfold resolveInventory
  rw [if_neg (by simp [hpost]), h4]

theorem resolveInventory_snd_afterForm (r : Req) (hpost : r.isGet = false)
    (h : truthy (invStepForm r (invStepJson r (invStepArgs r))).2) :
    (resolveInventory r).2 = (invStepForm r (invStepJson r (invStepArgs r))).2 := by
  have h4 := invStepValues_snd r (invStepForm r (invStepJson r (invStepArgs r))) h
  unfold resolveInventory
  rw [if_neg (by simp [hpost]), h4]

theorem resolveRestore_ty_afterJson (r : Req) (hpost : r.isGet = false)
    (h : truthy (restStepJson r (restStepArgs r)).ty) :
    (resolveRestore r).ty = (restStepJson r (restStepArgs r)).ty := by
  have h3 := restStepForm_ty r (restStepJson r (restStepArgs r)) h
  have t3 : truthy (restStepForm r (restStepJson r (restStepArgs r))).ty := by rw [h3]; exact h
  have h4 := restStepValues_ty r (restStepForm r (restStepJson r (restStepArgs r))) t3
  unfold resolveRestore
  rw [if_neg (by simp [hpost]), h4, h3]

theorem resolveRestore_bn_afterJson (r : Req) (hpost : r.isGet = false)
    (h : truthy (restStepJson r (restStepArgs r)).bn) :
    (resolveRestore r).bn = (restStepJson r (restStepArgs r)).bn := by
  have h3 := restStepForm_bn r (restStepJson r (restStepArgs r)) h
  have t3 : truthy (restStepForm r (restStepJson r (restStepArgs r))).bn := by rw [h3]; exact h
  have h4 := restStepValues_bn r (restStepForm r (restStepJson r (restStepArgs r))) t3
  unfold resolveRestore
  rw [if_neg (by simp [hpost]), h4, h3]

theorem resolveRestore_bid_afterJson (r : Req) (hpost : r.isGet = false)
    (h : truthy (restStepJson r (restStepArgs r)).bid) :
    (resolveRestore r).bid = (restStepJson r (restStepArgs r)).bid := by
  have h3 := restStepForm_bid r (restStepJson r (restStepArgs r)) h
  have t3 : truthy (restStepForm r (restStepJson r (restStepArgs r))).bid := by rw [h3]; exact h
  have h4 := restStepValues_bid r (restStepForm r (restStepJson r (restStepArgs r))) t3
  unfold resolveRestore
  rw [if_neg (by simp [hpost]), h4, h3]

theorem resolveRestore_ok_afterJson (r : Req) (hpost : r.isGet = false)
    (h : truthy (restStepJson r (restStepArgs r)).ok) :
    (resolveRestore r).ok = (restStepJson r (restStepArgs r)).ok := by
  have h3 := restStepForm_ok r (restStepJson r (restStepArgs r)) h
  have t3 : truthy (restStepForm r (restStepJson r (restStepArgs r))).ok := by rw [h3]; exact h
  have h4 := restStepValues_ok r (restStepForm r (restStepJson r (restStepArgs r))) t3
  unfold resolveRestore
  rw [if_neg (by simp [hpost]), h4, h3]

theorem resolveRestore_ty_afterForm (r : Req) (hpost : r.isGet = false)
    (h : truthy (restStepForm r (restStepJson r (restStepArgs r))).ty) :
    (resolveRestore r).ty = (restStepForm r (restStepJson r (restStepArgs r))).ty := by
  have h4 := restStepValues_ty r (restStepForm r (restStepJson r (restStepArgs r))) h
  unfold resolveRestore
  rw [if_neg (by simp [hpost]), h4]

theorem resolveRestore_bn_afterForm (r : Req) (hpost : r.isGet = false)
    (h : truthy (restStepForm r (restStepJson r (restStepArgs r))).bn) :
    (resolveRestore r).bn = (restStepForm r (restStepJson r (restStepArgs r))).bn := by
  have h4 := restStepValues_bn r (restStepForm r (restStepJson r (restStepArgs r))) h
  unfold resolveRestore
  rw [if_neg (by simp [hpost]), h4]

theorem resolveRestore_bid_afterForm (r : Req) (hpost : r.isGet = false)
    (h : truthy (restStepForm r (restStepJson r (restStepArgs r))).bid) :
    (resolveRestore r).bid = (restStepForm r (restStepJson r (restStepArgs r))).bid := by
  have h4 := restStepValues_bid r (restStepForm r (restStepJson r (restStepArgs r))) h
  unfold resolveRestore
  rw [if_neg (by simp [hpost]), h4]

theorem resolveRestore_ok_afterForm (r : Req) (hpost : r.isGet = false)
    (h : truthy (restStepForm r (restStepJson r (restStepArgs r))).ok) :
    (resolveRestore r).ok = (restStepForm r (restStepJson r (restStepArgs r))).ok := by
  have h4 := restStepValues_ok r (restStepForm r (restStepJson r (restStepArgs r))) h
  unfold resolveRestore
  rw [if_neg (by simp [hpost]), h4]

theorem resolveRestore_json_irrelevant (r : Req) (hpost : r.isGet = false)
    (h : truthy (getv r.args "type")) :
    resolveRestore r = resolveRestore { r with jsonBody := none } := by
  have t1 : truthy (restStepArgs r).ty := h
  have e1 : restStepJson r (restStepArgs r) = restStepArgs r := restStepJson_ty r _ t1
  have e2 : restStepJson { r with jsonBody := none } (restStepArgs r) = restStepArgs r :=
    restStepJson_ty _ _ t1
  unfold resolveRestore
  rw [if_neg (by simp [hpost]), if_neg (by simp [hpost])]
  show restStepValues r (restStepForm r (restStepJson r (restStepArgs r))) =
    restStepValues r (restStepForm r (restStepJson { r with jsonBody := none } (restStepArgs r)))
  rw [e1, e2]

/-! ## C1: ordered fallback chain -/

/-- POST `/restore` request with the type in the query string and the
bucket name only in the JSON body. -/
def c1Req : Req :=
  ⟨false, [("type", "s3")], some [("bucket-name", "frombody")], []⟩

/-- C1 counterexample: on `/restore`, when the type is resolved from the
query string, a bucket name whose only non-empty value sits in the JSON
body is NOT picked up — the resolver leaves it `None`, against the
claim's independence of fields. -/
theorem C1_fallback_counterexample :
    getv c1Req.args "bucket-name" = none
      ∧ c1Req.form = []
      ∧ c1Req.jsonBody = some [("bucket-name", "frombody")]
      ∧ truthy (getv [("bucket-name", "frombody")] "bucket-name") = true
      ∧ (resolveRestore c1Req).bn = none := by
  decide

/-- C1 amended: a field populated from a higher-priority source is never
overwritten by a lower-priority one, on both endpoints and for every
field, stated at every boundary of the chain: a field from the query
string survives all later stages, a field populated once the JSON stage
is done survives the form and values stages, and a field populated once
the form stage is done survives the values stage.  Moreover, on
`/inventory` a field whose only non-empty value sits in the JSON body is
still picked up even when the other field came from the query string;
but on `/restore` the JSON body is consulted only while `type` is
unresolved, so once `type` comes from the query string the JSON body has
no effect at all on the resolution. -/
theorem C1_fallback_amended (r : Req) (j : List (String × String)) :
    ((truthy (getv r.args "type") → (resolveInventory r).1 = getv r.args "type")
      ∧ (truthy (getv r.args "account") → (resolveInventory r).2 = getv r.args "account")
      ∧ (truthy (getv r.args "type") → (resolveRestore r).ty = getv r.args "type")
      ∧ (truthy (getv r.args "bucket-name") → (resolveRestore r).bn = getv r.args "bucket-name")
      ∧ (truthy (getv r.args "bucket-id") → (resolveRestore r).bid = getv r.args "bucket-id")
      ∧ (truthy (restStepArgs r).ok → (resolveRestore r).ok = (restStepArgs r).ok))
    ∧ (r.isGet = false →
        ((truthy (invStepJson r (invStepArgs r)).1 →
            (resolveInventory r).1 = (invStepJson r (invStepArgs r)).1)
          ∧ (truthy (invStepJson r (invStepArgs r)).2 →
              (resolveInventory r).2 = (invStepJson r (invStepArgs r)).2)
          ∧ (truthy (invStepForm r (invStepJson r (invStepArgs r))).1 →
              (resolveInventory r).1 = (invStepForm r (invStepJson r (invStepArgs r))).1)
          ∧ (truthy (invStepForm r (invStepJson r (invStepArgs r))).2 →
              (resolveInventory r).2 = (invStepForm r (invStepJson r (invStepArgs r))).2)
          ∧ (truthy (restStepJson r (restStepArgs r)).ty →
              (resolveRestore r).ty = (restStepJson r (restStepArgs r)).ty)
          ∧ (truthy (restStepJson r (restStepArgs r)).bn →
              (resolveRestore r).bn = (restStepJson r (restStepArgs r)).bn)
          ∧ (truthy (restStepJson r (restStepArgs r)).bid →
              (resolveRestore r).bid = (restStepJson r (restStepArgs r)).bid)
          ∧ (truthy (restStepJson r (restStepArgs r)).ok →
              (resolveRestore r).ok = (restStepJson r (restStepArgs r)).ok)
          ∧ (truthy (restStepForm r (restStepJson r (restStepArgs r))).ty →
              (resolveRestore r).ty = (restStepForm r (restStepJson r (restStepArgs r))).ty)
          ∧ (truthy (restStepForm r (restStepJson r (restStepArgs r))).bn →
              (resolveRestore r).bn = (restStepForm r (restStepJson r (restStepArgs r))).bn)
          ∧ (truthy (restStepForm r (restStepJson r (restStepArgs r))).bid →
              (resolveRestore r).bid = (restStepForm r (restStepJson r (restStepArgs r))).bid)
          ∧ (truthy (restStepForm r (restStepJson r (restStepArgs r))).ok →
              (resolveRestore r).ok = (restStepForm r (restStepJson r (restStepArgs r))).ok)))
    ∧ ((r.isGet = false → ¬ truthy (getv r.args "account") → r.jsonBody = some j →
          truthy (getv j "account") → (resolveInventory r).2 = getv j "account")
      ∧ (r.isGet = false → truthy (getv r.args "type") →
          resolveRestore r = resolveRestore { r with jsonBody := none })) := by
  refine ⟨⟨resolveInventory_fst_args r, resolveInventory_snd_args r, resolveRestore_ty_args r,
    resolveRestore_bn_args r, resolveRestore_bid_args r, resolveRestore_ok_args r⟩,
    fun hpost => ⟨resolveInventory_fst_afterJson r hpost, resolveInventory_snd_afterJson r hpost,
      resolveInventory_fst_afterForm r hpost, resolveInventory_snd_afterForm r hpost,
      resolveRestore_ty_afterJson r hpost, resolveRestore_bn_afterJson r hpost,
      resolveRestore_bid_afterJson r hpost, resolveRestore_ok_afterJson r hpost,
      resolveRestore_ty_afterForm r hpost, resolveRestore_bn_afterForm r hpost,
      resolveRestore_bid_afterForm r hpost, resolveRestore_ok_afterForm r hpost⟩,
    fun hp hna hj hacc => resolveInventory_json_account r j hp hna hj hacc,
    resolveRestore_json_irrelevant r⟩

/-- POST request with every `/restore` field in the query string and
lower-priority conflicting values elsewhere. -/
def c1ReqA : Req :=
  ⟨false,
    [("type", "s3"), ("account", "99"), ("bucket-name", "bn1"), ("bucket-id", "7"),
      ("object_key", "k")],
    some [("type", "ec2"), ("account", "11"), ("bucket-name", "bn2")],
    [("type", "ec2"), ("account", "22"), ("bucket-name", "bn3")]⟩

/-- POST request whose account sits only in the JSON body while the type
comes from the query string. -/
def c1ReqB : Req :=
  ⟨false, [("type", "s3")], some [("account", "42")], []⟩

/-- POST `/inventory` request whose type and account come from the JSON
body, against conflicting form fields and form text. -/
def c1ReqC : Req :=
  ⟨false, [], some [("type", "s3"), ("account", "42")],
    [("type", "ec2"), ("account", "99"), ("text", "type=ec2 account=77")]⟩

/-- POST `/inventory` request whose type and account come from the form
fields, against conflicting form text. -/
def c1ReqD : Req :=
  ⟨false, [], none, [("type", "s3"), ("account", "42"), ("text", "type=ec2 account=77")]⟩

/-- POST `/restore` request whose four fields come from the JSON body,
against conflicting form fields. -/
def c1ReqE : Req :=
  ⟨false, [],
    some [("type", "s3"), ("bucket-name", "jbn"), ("bucket-id", "7"), ("object_key", "jok")],
    [("type", "ec2"), ("bucket-name", "fbn"), ("bucket-id", "8"), ("object_key", "fok")]⟩

/-- POST `/restore` request whose four fields come from the form
fields. -/
def c1ReqF : Req :=
  ⟨false, [], none,
    [("type", "s3"), ("bucket-name", "fbn"), ("bucket-id", "8"), ("object_key", "fok")]⟩

/-- Witness for C1 at concrete requests: the query string wins for every
field; JSON-populated and form-populated fields survive the later stages
on both endpoints; the JSON-body account is picked up on `/inventory`;
and the JSON body is inert on `/restore` once the type came from the
query string. -/
theorem C1_fallback_witness :
    ((resolveInventory c1ReqA).1 = some "s3"
        ∧ (resolveInventory c1ReqA).2 = some "99"
        ∧ (resolveRestore c1ReqA).ty = some "s3"
        ∧ (resolveRestore c1ReqA).bn = some "bn1"
        ∧ (resolveRestore c1ReqA).bid = some "7"
        ∧ (resolveRestore c1ReqA).ok = some "k")
      ∧ ((resolveInventory c1ReqC).1 = some "s3"
        ∧ (resolveInventory c1ReqC).2 = some "42"
        ∧ (resolveInventory c1ReqD).1 = some "s3"
        ∧ (resolveInventory c1ReqD).2 = some "42"
        ∧ (resolveRestore c1ReqE).ty = some "s3"
        ∧ (resolveRestore c1ReqE).bn = some "jbn"
        ∧ (resolveRestore c1ReqE).bid = some "7"
        ∧ (resolveRestore c1ReqE).ok = some "jok"
        ∧ (resolveRestore c1ReqF).ty = some "s3"
        ∧ (resolveRestore c1ReqF).bn = some "fbn"
        ∧ (resolveRestore c1ReqF).bid = some "8"
        ∧ (resolveRestore c1ReqF).ok = some "fok")
      ∧ ((resolveInventory c1ReqB).2 = some "42"
        ∧ resolveRestore c1ReqB = resolveRestore { c1ReqB with jsonBody := none }) := by
  refine ⟨⟨((C1_fallback_amended c1ReqA []).1.1 (by decide)).trans (by decide),
    ((C1_fallback_amended c1ReqA []).1.2.1 (by decide)).trans (by decide),
    ((C1_fallback_amended c1ReqA []).1.2.2.1 (by decide)).trans (by decide),
    ((C1_fallback_amended c1ReqA []).1.2.2.2.1 (by decide)).trans (by decide),
    ((C1_fallback_amended c1ReqA []).1.2.2.2.2.1 (by decide)).trans (by decide),
    ((C1_fallback_amended c1ReqA []).1.2.2.2.2.2 (by decide)).trans (by decide)⟩,
    ⟨(((C1_fallback_amended c1ReqC []).2.1 rfl).1 (by decide)).trans (by decide),
    (((C1_fallback_amended c1ReqC []).2.1 rfl).2.1 (by decide)).trans (by decide),
    (((C1_fallback_amended c1ReqD []).2.1 rfl).2.2.1 (by decide)).trans (by decide),
    (((C1_fallback_amended c1ReqD []).2.1 rfl).2.2.2.1 (by decide)).trans (by decide),
    (((C1_fallback_amended c1ReqE []).2.1 rfl).2.2.2.2.1 (by decide)).trans (by decide),
    (((C1_fallback_amended c1ReqE []).2.1 rfl).2.2.2.2.2.1 (by decide)).trans (by decide),
    (((C1_fallback_amended c1ReqE []).2.1 rfl).2.2.2.2.2.2.1 (by decide)).trans (by decide),
    (((C1_fallback_amended c1ReqE []).2.1 rfl).2.2.2.2.2.2.2.1 (by decide)).trans (by decide),
    (((C1_fallback_amended c1ReqF []).2.1 rfl).2.2.2.2.2.2.2.2.1 (by decide)).trans (by decide),
    (((C1_fallback_amended c1ReqF []).2.1 rfl).2.2.2.2.2.2.2.2.2.1 (by decide)).trans
      (by decide),
    (((C1_fallback_amended c1ReqF []).2.1 rfl).2.2.2.2.2.2.2.2.2.2.1 (by decide)).trans
      (by decide),
    (((C1_fallback_amended c1ReqF []).2.1 rfl).2.2.2.2.2.2.2.2.2.2.2 (by decide)).trans
      (by decide)⟩,
    ((C1_fallback_amended c1ReqB [("account", "42")]).2.2.1 rfl (by decide) rfl
      (by decide)).trans (by decide),
    (C1_fallback_amended c1ReqB []).2.2.2 rfl (by decide)⟩

/-! ## C2: acknowledgment before backend calls -/

theorem backendBeforeResponse_fallThrough (p : IPayload) (a : IAction) :
    backendBeforeResponse (fallThroughEvents p a) = false := by
  unfold fallThroughEvents
  rcases hda : a.decoded with _ | ⟨id, b, c⟩
  · cases hru : p.hasResponseUrl <;> decide
  · dsimp only
    by_cases hid : id = ""
    · simp only [hid]
      cases hru : p.hasResponseUrl <;> decide
    · rw [if_neg hid]
      cases hru : p.hasResponseUrl <;> decide

/-- Interaction payload for the view_bucket modal branch. -/
def c2Payload : IPayload :=
  ⟨true, true, [⟨"view_bucket", some ("asset1", "7", "bkt")⟩], true, true⟩

/-- C2 counterexample: a view_bucket click with a trigger id makes the
synchronous Clumio backups call BEFORE the acknowledgment response is
returned. -/
theorem C2_ack_counterexample :
    backendBeforeResponse (slackInteractiveTrace c2Payload true true) = true
      ∧ slackInteractiveTrace c2Payload true true =
        [IEvent.clumioBackups, IEvent.slackModalOpen, IEvent.ackEmpty] := by
  decide

/-- C2 amended: on every path except the view_bucket-with-trigger-id
branch whose button value decodes, no backend call precedes the response;
on that branch the backups listing is fetched synchronously before the
acknowledgment (see the counterexample). -/
theorem C2_ack_amended (p : IPayload) (backendOk botToken : Bool)
    (h : ∀ a, p.actions.head? = some a →
      ¬(a.actionId = "view_bucket" ∧ p.hasTrigger = true ∧ a.decoded ≠ none)) :
    backendBeforeResponse (slackInteractiveTrace p backendOk botToken) = false := by
  unfold slackInteractiveTrace
  by_cases h1 : p.hasPayload = true
  swap
  · simp only [h1, Bool.false_eq_true, not_false_eq_true, if_pos]
    decide
  by_cases h2 : p.parses = true
  swap
  · simp only [h1, h2, Bool.false_eq_true, not_true_eq_false, not_false_eq_true,
      if_neg, if_pos]
    decide
  rcases hact : p.actions with _ | ⟨a, rest⟩
  · simp only [h1, h2, not_true_eq_false, Bool.false_eq_true, if_neg]
    decide
  · have hna := h a (by rw [hact]; rfl)
    simp only [h1, h2, not_true_eq_false, Bool.false_eq_true, if_neg]
    by_cases hvb : a.actionId = "view_bucket" ∧ p.hasTrigger = true
    · have hdec : a.decoded = none := by
        by_contra hc
        exact hna ⟨hvb.1, hvb.2, hc⟩
      rw [if_pos hvb, hdec]
      exact backendBeforeResponse_fallThrough p a
    · rw [if_neg hvb]
      exact backendBeforeResponse_fallThrough p a

/-- Witness for C2 at a non-view_bucket click with a response URL: the
trace spawns the background update and acknowledges, with no synchronous
backend call before the response. -/
theorem C2_ack_witness :
    backendBeforeResponse
      (slackInteractiveTrace ⟨true, true, [⟨"other", some ("x", "y", "z")⟩], true, true⟩
        true true) = false := by
  exact C2_ack_amended ⟨true, true, [⟨"other", some ("x", "y", "z")⟩], true, true⟩ true true
    (by decide)

/-! ## C3: duplicate keys, first wins -/

/-- C3 counterexample: on the slash-command parse, the assignments carry
no guard, so the LAST duplicate wins: the documented input yields `ec2`,
not `s3`. -/
theorem C3_first_wins_counterexample :
    commandTextParse "type=s3 type=ec2" = (some "ec2", none)
      ∧ (some "ec2" : Option String) ≠ some "s3" := by
  decide

/-- C3 amended: on the `/inventory` endpoint text parse the first
assignment to a key wins for both recognized keys — a populated type and
a populated account are never overwritten by later tokens (as on the
documented input and its account analogue); on the slash-command text
parse the assignments carry no guard, so the last assignment to a key
wins and the same inputs yield `ec2` and `2` there. -/
theorem C3_first_wins_amended (t a : Option String) (ps : List String) :
    (truthy t → (parseKVInventory t a ps).1 = t)
      ∧ (truthy a → (parseKVInventory t a ps).2 = a)
      ∧ inventoryTextBlock none none "type=s3 type=ec2" = (some "s3", none)
      ∧ inventoryTextBlock none none "account=1 account=2" = (none, some "1")
      ∧ commandTextParse "type=s3 type=ec2" = (some "ec2", none)
      ∧ commandTextParse "account=1 account=2" = (none, some "2") := by
  exact ⟨parseKVInventory_fst ps t a, parseKVInventory_snd ps t a,
    by decide, by decide, by decide, by decide⟩

/-- Witness for C3: a type already set to `s3` and an account already set
to `42` both survive later duplicate tokens on the `/inventory` parse. -/
theorem C3_first_wins_witness :
    (truthy (some "s3") = true
        ∧ (parseKVInventory (some "s3") (some "42") ["type=ec2", "account=7"]).1 = some "s3")
      ∧ (truthy (some "42") = true
        ∧ (parseKVInventory (some "s3") (some "42") ["type=ec2", "account=7"]).2
            = some "42") := by
  exact ⟨⟨by decide,
      (C3_first_wins_amended (some "s3") (some "42") ["type=ec2", "account=7"]).1 (by decide)⟩,
    ⟨by decide,
      (C3_first_wins_amended (some "s3") (some "42") ["type=ec2", "account=7"]).2.1
        (by decide)⟩⟩

/-! ## C4: bare tokens -/

theorem parseKVInventory_no_eq (ps : List String) :
    ∀ t a, (∀ tok ∈ ps, hasEq tok = false) → parseKVInventory t a ps = (t, a) := by
  induction ps with
  | nil => intro t a _; rfl
  | cons p ps ih =>
    intro t a hall
    have hp : hasEq p = false := hall p (by simp)
    simp only [parseKVInventory, hp, Bool.false_eq_true, if_neg, if_false]
    exact ih t a (fun tok htok => hall tok (by simp [htok]))

/-- C4 counterexample: on the slash-command parse, the bare token `foo`
(neither `s3` nor `ec2`) is NOT silently ignored: it is assigned as the
type. -/
theorem C4_bare_token_counterexample :
    commandTextParse "foo" = (some "foo", none)
      ∧ (some "foo" : Option String) ≠ none := by
  decide

/-- C4 amended: on the `/inventory` endpoint text parse, tokens without
`'='` assign nothing unless the whole stripped text is exactly `s3` or
`ec2` (so a bare token acts as type shorthand only in that case); on the
slash-command parse, ANY bare token is assigned as the type when no type
is set yet, and is only rejected later by validation. -/
theorem C4_bare_token_amended (t a : Option String) (s p : String) (ps : List String)
    (hs : ∀ tok ∈ pySplit (pyStrip s), hasEq tok = false)
    (hbare : ¬(pyStrip s = "s3" ∨ pyStrip s = "ec2"))
    (hp : hasEq p = false) (ht : ¬ truthy t) :
    inventoryTextBlock t a s = (t, a)
      ∧ parseKVCommand t a (p :: ps) = parseKVCommand (some (pyStrip p)) a ps := by
  constructor
  · have hkv := parseKVInventory_no_eq (pySplit (pyStrip s)) t a hs
    simp [inventoryTextBlock, hkv, hbare]
  · simp [parseKVCommand, hp, ht]

/-- Witness for C4: the two-token text `foo bar` assigns nothing on the
`/inventory` parse, while the bare token `foo` is assigned as the type on
the slash-command parse. -/
theorem C4_bare_token_witness :
    inventoryTextBlock none none "foo bar" = (none, none)
      ∧ parseKVCommand none none ["foo"] = parseKVCommand (some "foo") none [] := by
  exact C4_bare_token_amended none none "foo bar" "foo" [] (by decide) (by decide)
    (by decide) (by decide)

/-! ## C5: /restore bucket-id validation -/

/-- GET `/restore` request with a signed numeric bucket-id. -/
def c5Req : Req := ⟨true, [("type", "s3"), ("bucket-id", "-5")], none, []⟩

/-- C5 counterexample: the resolved bucket-id `-5` is present and is not
an all-digits string, yet the endpoint does not answer 400 — it proceeds
to the backend restore call, because `int('-5')` succeeds. -/
theorem C5_bucket_id_counterexample :
    (resolveRestore c5Req).bid = some "-5"
      ∧ pyIsDigitStr "-5" = false
      ∧ restore c5Req = RestOutcome.backend "s3" none (some "-5") none := by
  decide

/-- C5 amended: a present bucket-id is accepted exactly when Python
`int()` parses it (which admits signed, whitespace-padded and
underscore-grouped integer strings beyond all-digit ones); otherwise the
endpoint answers the 400 whose message mentions bucket-id and numeric,
and the backend restore call is never made. -/
theorem C5_bucket_id_amended (r : Req) (s : String)
    (hbid : (resolveRestore r).bid = some s)
    (hty : truthy (resolveRestore r).ty)
    (hvalid : (resolveRestore r).ty.getD "" = "s3" ∨ (resolveRestore r).ty.getD "" = "ec2") :
    (pyIntOk s = true →
      restore r = RestOutcome.backend ((resolveRestore r).ty.getD "") (resolveRestore r).bn
        (resolveRestore r).bid (resolveRestore r).ok)
      ∧ (pyIntOk s = false →
          restore r = RestOutcome.invalidBucketId restBucketIdMsg
            ∧ mentions restBucketIdMsg "bucket-id" = true
            ∧ mentions restBucketIdMsg "numeric" = true
            ∧ ∀ ty bn bid okey, restore r ≠ RestOutcome.backend ty bn bid okey) := by
  have hne : ¬((resolveRestore r).ty.getD "" ≠ "s3" ∧ (resolveRestore r).ty.getD "" ≠ "ec2") := by
    rcases hvalid with h | h <;> simp [h]
  constructor
  · intro hok
    simp only [restore]
    rw [if_neg (by simp [hty]), if_neg hne, hbid]
    simp [hok]
  · intro hbad
    have hmain : restore r = RestOutcome.invalidBucketId restBucketIdMsg := by
      simp only [restore]
      rw [if_neg (by simp [hty]), if_neg hne, hbid]
      simp [hbad]
    refine ⟨hmain, by decide, by decide, ?_⟩
    intro ty bn bid okey hcontra
    rw [hmain] at hcontra
    exact RestOutcome.noConfusion hcontra

/-- GET `/restore` request with an all-digit bucket-id. -/
def c5ReqOk : Req := ⟨true, [("type", "s3"), ("bucket-id", "123")], none, []⟩

/-- GET `/restore` request with a non-numeric bucket-id. -/
def c5ReqBad : Req := ⟨true, [("type", "s3"), ("bucket-id", "abc")], none, []⟩

/-- Witness for C5: bucket-id `123` reaches the backend call, while
bucket-id `abc` produces the 400 bucket-id error. -/
theorem C5_bucket_id_witness :
    restore c5ReqOk = RestOutcome.backend "s3" none (some "123") none
      ∧ restore c5ReqBad = RestOutcome.invalidBucketId restBucketIdMsg := by
  constructor
  · exact ((C5_bucket_id_amended c5ReqOk "123" (by decide) (by decide)
      (Or.inl (by decide))).1 (by decide)).trans (by decide)
  · exact ((C5_bucket_id_amended c5ReqBad "abc" (by decide) (by decide)
      (Or.inl (by decide))).2 (by decide)).1

/-! ## C6: /inventory with (possibly defaulted) s3 type and no account -/

/-- C6: for every `/inventory` request whose resolved type is `s3` —
including the default when no source supplies a type — and whose resolved
account is falsy, the endpoint answers with the 400 missing-account error
whose message mentions `account`, and never dispatches to the backend. -/
theorem C6_missing_account (r : Req)
    (h1 : invTypeResolved r = "s3") (h2 : ¬ truthy (resolveInventory r).2) :
    inventory r = InvOutcome.missingAccount invMissingAccountMsg
      ∧ mentions invMissingAccountMsg "account" = true
      ∧ ∀ ty acc, inventory r ≠ InvOutcome.backend ty acc := by
  have hmain : inventory r = InvOutcome.missingAccount invMissingAccountMsg := by
    unfold inventory
    rw [h1]
    simp [h2]
  refine ⟨hmain, by decide, ?_⟩
  intro ty acc
  rw [hmain]
  intro hcontra
  exact InvOutcome.noConfusion hcontra

/-- Witness for C6: a POST request carrying no parameters at all defaults
to type `s3` and has no account. -/
theorem C6_missing_account_witness :
    invTypeResolved ⟨false, [], none, []⟩ = "s3"
      ∧ ¬ truthy (resolveInventory ⟨false, [], none, []⟩).2
      ∧ inventory ⟨false, [], none, []⟩ = InvOutcome.missingAccount invMissingAccountMsg := by
  refine ⟨by decide, by decide, ?_⟩
  exact (C6_missing_account ⟨false, [], none, []⟩ (by decide) (by decide)).1

/-! ## C7: account masking -/

/-- C7: the account-masking function keeps the length, replaces all but
the last four characters with the mask character when the input is longer
than four characters, and fully masks inputs of at most four characters;
in particular on the two documented examples. -/
theorem C7_masking (s : String) :
    (s.length > 4 →
      (maskAccount s).data =
        List.replicate (s.length - 4) '*' ++ s.data.drop (s.length - 4))
      ∧ (s.length ≤ 4 → (maskAccount s).data = List.replicate s.length '*')
      ∧ (maskAccount s).length = s.length
      ∧ maskAccount "1234567890" = "******7890"
      ∧ maskAccount "12" = "**" := by
  have hdata : ∀ t u : String, (t ++ u).data = t.data ++ u.data := by
    intro t u; rfl
  have hlong : s.length > 4 →
      (maskAccount s).data =
        List.replicate (s.length - 4) '*' ++ s.data.drop (s.length - 4) := by
    intro h
    simp only [maskAccount, if_pos h, hdata, starRepeat]
  have hshort : s.length ≤ 4 → (maskAccount s).data = List.replicate s.length '*' := by
    intro h
    have : ¬ s.length > 4 := by omega
    simp only [maskAccount, if_neg this, starRepeat]
  refine ⟨hlong, hshort, ?_, by decide, by decide⟩
  by_cases h : s.length > 4
  · have hlen : s.data.length = s.length := rfl
    have := hlong h
    have : (maskAccount s).data.length =
        (List.replicate (s.length - 4) '*' ++ s.data.drop (s.length - 4)).length := by
      rw [this]
    simp only [List.length_append, List.length_replicate, List.length_drop, hlen] at this
    show (maskAccount s).data.length = s.length
    omega
  · have := hshort (by omega)
    have : (maskAccount s).data.length = (List.replicate s.length '*').length := by rw [this]
    simp only [List.length_replicate] at this
    exact this

/-- Witness for C7 at a length-10 input, discharging both hypotheses of
its conditional parts at 10 > 4 and (via the second input) 2 ≤ 4. -/
theorem C7_masking_witness :
    ("1234567890".length > 4
        ∧ (maskAccount "1234567890").data =
          List.replicate ("1234567890".length - 4) '*'
            ++ "1234567890".data.drop ("1234567890".length - 4))
      ∧ ("12".length ≤ 4 ∧ (maskAccount "12").data = List.replicate "12".length '*') := by
  exact ⟨⟨by decide, (C7_masking "1234567890").1 (by decide)⟩,
    ⟨by decide, (C7_masking "12").2.1 (by decide)⟩⟩

/-! ## C9: ClumioClient.restore bucket_id body field -/

/-- C9: the restore body carries `bucket_id` as an integer exactly when
the provided non-empty string is all ASCII digits; any other non-empty
string is passed through unchanged as a string. -/
theorem C9_client_bucket_id (bn okey : Option String) (s : String) (h : s ≠ "") :
    ((clientRestoreBody bn (some s) okey).bucket_id =
      some (if pyIsDigitStr s then BodyVal.int (natOfDigits s.data) else BodyVal.str s))
      ∧ ((∃ n, (clientRestoreBody bn (some s) okey).bucket_id = some (BodyVal.int n)) ↔
          pyIsDigitStr s = true)
      ∧ (pyIsDigitStr s = false →
          (clientRestoreBody bn (some s) okey).bucket_id = some (BodyVal.str s)) := by
  have hmain : (clientRestoreBody bn (some s) okey).bucket_id =
      some (if pyIsDigitStr s then BodyVal.int (natOfDigits s.data) else BodyVal.str s) := by
    simp [clientRestoreBody, h]
  refine ⟨hmain, ?_, ?_⟩
  · constructor
    · rintro ⟨n, hn⟩
      rw [hmain] at hn
      by_cases hd : pyIsDigitStr s
      · exact hd
      · simp [hd] at hn
    · intro hd
      exact ⟨natOfDigits s.data, by rw [hmain, if_pos hd]⟩
  · intro hd
    rw [hmain, if_neg (by simp [hd])]

/-- Witness for C9: the all-digit string `123` goes out as the integer
123, while `-5` — which the `/restore` endpoint's `int()`-based check
accepts — goes out unchanged as a string. -/
theorem C9_client_bucket_id_witness :
    ((clientRestoreBody none (some "123") none).bucket_id = some (BodyVal.int 123))
      ∧ (pyIntOk "-5" = true
          ∧ (clientRestoreBody none (some "-5") none).bucket_id =
            some (BodyVal.str "-5")) := by
  refine ⟨?_, by decide, (C9_client_bucket_id none none "-5" (by decide)).2.2 (by decide)⟩
  have h := (C9_client_bucket_id none none "123" (by decide)).1
  rw [h, if_pos (by decide)]
  decide

/-! ## C10: get_s3_bucket_objects second request -/

/-- C10: with an empty backups listing, `get_s3_bucket_objects` returns
the empty-shaped result without a second backend request; the second
(objects) request is issued exactly when at least one backup exists. -/
theorem C10_objects (backups : List BackupItem) (backup_id : Option String) :
    (backups = [] →
      getS3BucketObjects backups backup_id = S3ObjectsOutcome.emptyNoRequest)
      ∧ (backups ≠ [] →
          ∃ bid, getS3BucketObjects backups backup_id = S3ObjectsOutcome.requestObjects bid)
      ∧ (∀ bid,
          getS3BucketObjects backups backup_id = S3ObjectsOutcome.requestObjects bid →
            backups ≠ []) := by
  refine ⟨?_, ?_, ?_⟩
  · intro h; subst h; rfl
  · intro h
    match backups with
    | [] => exact absurd rfl h
    | latest :: rest =>
      exact ⟨if truthy backup_id then backup_id else latest.id, rfl⟩
  · intro bid h hnil
    subst hnil
    exact S3ObjectsOutcome.noConfusion h

/-- Witness for C10 at an empty and a one-element backups listing. -/
theorem C10_objects_witness :
    getS3BucketObjects [] none = S3ObjectsOutcome.emptyNoRequest
      ∧ ∃ bid, getS3BucketObjects [⟨some "b1"⟩] none = S3ObjectsOutcome.requestObjects bid := by
  exact ⟨(C10_objects [] none).1 rfl,
    (C10_objects [⟨some "b1"⟩] none).2.1 (by simp)⟩

/-! ## C8: button value round trip -/

theorem hexVal_hexDigitChar (k : Nat) (hk : k < 16) :
    hexVal (hexDigitChar k) = some k := by
  interval_cases k <;> decide

theorem readHex4_hex4 (n : Nat) (hlt : n < 65536) (rest : List Char) :
    readHex4 (hex4 n ++ rest) = some (n, rest) := by
  have d1 := hexVal_hexDigitChar (n / 4096 % 16) (Nat.mod_lt _ (by decide))
  have d2 := hexVal_hexDigitChar (n / 256 % 16) (Nat.mod_lt _ (by decide))
  have d3 := hexVal_hexDigitChar (n / 16 % 16) (Nat.mod_lt _ (by decide))
  have d4 := hexVal_hexDigitChar (n % 16) (Nat.mod_lt _ (by decide))
  have harith : 4096 * (n / 4096 % 16) + 256 * (n / 256 % 16) + 16 * (n / 16 % 16) + n % 16
      = n := by omega
  simp only [hex4, List.cons_append, List.nil_append, readHex4, d1, d2, d3, d4, harith]


theorem decodeUEsc_single (n : Nat) (hlt : n < 65536) (hsur : ¬(55296 ≤ n ∧ n < 57344))
    (rest : List Char) :
    decodeUEsc (hex4 n ++ rest) = some (Char.ofNat n, rest) := by
  simp only [decodeUEsc, readHex4_hex4 n hlt rest]
  rw [if_neg (fun hc => hsur ⟨hc.1, by omega⟩), if_neg (fun hc => hsur ⟨by omega, hc.2⟩)]


theorem decodeUEsc_pair_abstract (hi lo : Nat) (hhi1 : 55296 ≤ hi) (hhi2 : hi < 56320)
    (hlo1 : 56320 ≤ lo) (hlo2 : lo < 57344) (rest : List Char) :
    decodeUEsc (hex4 hi ++ (backslashChar :: 'u' :: (hex4 lo ++ rest)))
      = some (Char.ofNat (65536 + (hi - 55296) * 1024 + (lo - 56320)), rest) := by
  simp only [decodeUEsc, readHex4_hex4 hi (by omega), readHex4_hex4 lo (by omega)]
  rw [if_pos ⟨hhi1, hhi2⟩, if_pos ⟨trivial, trivial⟩, if_pos ⟨hlo1, hlo2⟩]


theorem decodeUEsc_pair (n : Nat) (h1 : 65536 ≤ n) (h2 : n < 1114112) (rest : List Char) :
    decodeUEsc (hex4 (55296 + (n - 65536) / 1024)
        ++ (backslashChar :: 'u' :: (hex4 (56320 + (n - 65536) % 1024) ++ rest)))
      = some (Char.ofNat n, rest) := by
  have hlo2 : (n - 65536) % 1024 < 1024 := Nat.mod_lt _ (by decide)
  have habs := decodeUEsc_pair_abstract (55296 + (n - 65536) / 1024)
    (56320 + (n - 65536) % 1024) (by omega) (by omega) (by omega) (by omega) rest
  rw [habs]
  have heq : 65536 + (55296 + (n - 65536) / 1024 - 55296) * 1024
      + (56320 + (n - 65536) % 1024 - 56320) = n := by
    have := Nat.div_add_mod (n - 65536) 1024
    omega
  rw [heq]


theorem char_valid_nat (c : Char) :
    c.toNat < 55296 ∨ (57343 < c.toNat ∧ c.toNat < 1114112) := by
  rcases c.valid with h | ⟨h1, h2⟩
  · left; exact h
  · right; exact ⟨h1, h2⟩

theorem parseStrF_step_esc (fuel : Nat) (acc l rest : List Char) (c : Char)
    (hdec : decodeEscape l = some (c, rest)) :
    parseStrF (fuel + 1) acc (backslashChar :: l) = parseStrF fuel (c :: acc) rest := by
  simp only [parseStrF, hdec]
  rw [if_neg (by decide), if_pos trivial]

theorem decodeEscape_u (rest : List Char) :
    decodeEscape ('u' :: rest) = decodeUEsc rest := by
  simp only [decodeEscape]
  rw [if_neg (by decide), if_neg (by decide), if_neg (by decide), if_neg (by decide),
    if_neg (by decide), if_neg (by decide), if_pos trivial]

theorem parseStrF_escapeChar (fuel : Nat) (acc rest : List Char) (c : Char) :
    parseStrF (fuel + 1) acc (escapeChar c ++ rest) = parseStrF fuel (c :: acc) rest := by
  by_cases h1 : c = quoteChar
  · subst h1
    have hdec : decodeEscape (quoteChar :: rest) = some (quoteChar, rest) := by
      simp only [decodeEscape]
      rw [if_pos (Or.inl trivial)]
    exact parseStrF_step_esc fuel acc _ rest _ hdec
  by_cases h2 : c = backslashChar
  · subst h2
    have hdec : decodeEscape (backslashChar :: rest) = some (backslashChar, rest) := by
      simp only [decodeEscape]
      rw [if_pos (Or.inr (Or.inl trivial))]
    exact parseStrF_step_esc fuel acc _ rest _ hdec
  by_cases h3 : c = Char.ofNat 8
  · subst h3
    have hdec : decodeEscape ('b' :: rest) = some (Char.ofNat 8, rest) := by
      simp only [decodeEscape]
      rw [if_neg (by decide), if_pos trivial]
    rw [show escapeChar (Char.ofNat 8) = [backslashChar, 'b'] from rfl]
    exact parseStrF_step_esc fuel acc _ rest _ hdec
  by_cases h4 : c = Char.ofNat 9
  · subst h4
    have hdec : decodeEscape ('t' :: rest) = some (Char.ofNat 9, rest) := by
      simp only [decodeEscape]
      rw [if_neg (by decide), if_neg (by decide), if_pos trivial]
    rw [show escapeChar (Char.ofNat 9) = [backslashChar, 't'] from rfl]
    exact parseStrF_step_esc fuel acc _ rest _ hdec
  by_cases h5 : c = Char.ofNat 10
  · subst h5
    have hdec : decodeEscape ('n' :: rest) = some (Char.ofNat 10, rest) := by
      simp only [decodeEscape]
      rw [if_neg (by decide), if_neg (by decide), if_neg (by decide), if_pos trivial]
    rw [show escapeChar (Char.ofNat 10) = [backslashChar, 'n'] from rfl]
    exact parseStrF_step_esc fuel acc _ rest _ hdec
  by_cases h6 : c = Char.ofNat 12
  · subst h6
    have hdec : decodeEscape ('f' :: rest) = some (Char.ofNat 12, rest) := by
      simp only [decodeEscape]
      rw [if_neg (by decide), if_neg (by decide), if_neg (by decide), if_neg (by decide),
        if_pos trivial]
    rw [show escapeChar (Char.ofNat 12) = [backslashChar, 'f'] from rfl]
    exact parseStrF_step_esc fuel acc _ rest _ hdec
  by_cases h7 : c = Char.ofNat 13
  · subst h7
    have hdec : decodeEscape ('r' :: rest) = some (Char.ofNat 13, rest) := by
      simp only [decodeEscape]
      rw [if_neg (by decide), if_neg (by decide), if_neg (by decide), if_neg (by decide),
        if_neg (by decide), if_pos trivial]
    rw [show escapeChar (Char.ofNat 13) = [backslashChar, 'r'] from rfl]
    exact parseStrF_step_esc fuel acc _ rest _ hdec
  by_cases hrange : c.toNat < 32 ∨ 126 < c.toNat
  · have hesc : escapeChar c =
        if c.toNat < 65536 then uEsc c.toNat
        else uEsc (55296 + (c.toNat - 65536) / 1024)
          ++ uEsc (56320 + (c.toNat - 65536) % 1024) := by
      simp only [escapeChar, if_neg h1, if_neg h2, if_neg h3, if_neg h4, if_neg h5, if_neg h6,
        if_neg h7, if_pos hrange]
    by_cases hbig : c.toNat < 65536
    · rw [hesc, if_pos hbig]
      have hsur : ¬(55296 ≤ c.toNat ∧ c.toNat < 57344) := by
        rcases char_valid_nat c with h | ⟨h, _⟩ <;> omega
      have hdec : decodeEscape ('u' :: (hex4 c.toNat ++ rest)) = some (c, rest) := by
        rw [decodeEscape_u, decodeUEsc_single c.toNat hbig hsur rest, Char.ofNat_toNat]
      rw [show uEsc c.toNat ++ rest = backslashChar :: 'u' :: (hex4 c.toNat ++ rest) by
        simp [uEsc]]
      exact parseStrF_step_esc fuel acc _ rest _ hdec
    · rw [hesc, if_neg hbig]
      have hn1 : 65536 ≤ c.toNat := by omega
      have hn2 : c.toNat < 1114112 := by
        rcases char_valid_nat c with h | ⟨_, h⟩ <;> omega
      have hdec : decodeEscape
          ('u' :: (hex4 (55296 + (c.toNat - 65536) / 1024)
            ++ (backslashChar :: 'u' :: (hex4 (56320 + (c.toNat - 65536) % 1024) ++ rest))))
          = some (c, rest) := by
        rw [decodeEscape_u, decodeUEsc_pair c.toNat hn1 hn2 rest, Char.ofNat_toNat]
      rw [show (uEsc (55296 + (c.toNat - 65536) / 1024)
          ++ uEsc (56320 + (c.toNat - 65536) % 1024)) ++ rest
          = backslashChar :: 'u' :: (hex4 (55296 + (c.toNat - 65536) / 1024)
            ++ (backslashChar :: 'u' :: (hex4 (56320 + (c.toNat - 65536) % 1024) ++ rest))) by
        simp [uEsc]]
      exact parseStrF_step_esc fuel acc _ rest _ hdec
  · have hesc : escapeChar c = [c] := by
      simp only [escapeChar, if_neg h1, if_neg h2, if_neg h3, if_neg h4, if_neg h5, if_neg h6,
        if_neg h7, if_neg hrange]
    rw [hesc, List.singleton_append]
    simp only [parseStrF]
    rw [if_neg h1, if_neg h2]


theorem escapeList_length (l : List Char) : l.length ≤ (escapeList l).length := by
  induction l with
  | nil => simp [escapeList]
  | cons c cs ih =>
    have hpos : 1 ≤ (escapeChar c).length := by
      unfold escapeChar
      repeat' split
      all_goals simp [uEsc, hex4]
    simp only [escapeList, List.length_append, List.length_cons]
    omega

theorem parseStrF_escapeList (l : List Char) : ∀ fuel acc rest,
    parseStrF (fuel + l.length + 1) acc (escapeList l ++ (quoteChar :: rest))
      = some (acc.reverse ++ l, rest) := by
  induction l with
  | nil =>
    intro fuel acc rest
    simp only [escapeList, List.nil_append, List.length_nil, Nat.add_zero]
    simp only [parseStrF]
    rw [if_pos trivial]
    simp
  | cons c cs ih =>
    intro fuel acc rest
    rw [show escapeList (c :: cs) ++ (quoteChar :: rest)
        = escapeChar c ++ (escapeList cs ++ (quoteChar :: rest)) by
      simp [escapeList, List.append_assoc]]
    rw [show fuel + (c :: cs).length + 1 = (fuel + cs.length + 1) + 1 by
      simp [List.length_cons]; omega]
    rw [parseStrF_escapeChar, ih fuel (c :: acc) rest]
    simp

theorem parseJString_encode (s : String) (rest : List Char) :
    parseJString (encodeString s ++ rest) = some (s.data, rest) := by
  rw [show encodeString s ++ rest = quoteChar :: (escapeList s.data ++ (quoteChar :: rest)) by
    simp [encodeString]]
  simp only [parseJString]
  rw [if_pos trivial]
  rw [show (escapeList s.data ++ (quoteChar :: rest)).length + 1
      = (((escapeList s.data).length + rest.length + 1) - s.data.length) + s.data.length + 1 by
    have := escapeList_length s.data
    simp only [List.length_append, List.length_cons]
    omega]
  rw [parseStrF_escapeList s.data _ [] rest]
  simp


theorem mkData (s : String) : String.mk s.data = s := rfl

theorem skipWs_quote (l : List Char) : skipWs (quoteChar :: l) = quoteChar :: l := by
  simp only [skipWs]
  rw [if_neg (by decide)]

theorem skipWs_lbrace (l : List Char) : skipWs (lbraceChar :: l) = lbraceChar :: l := by
  simp only [skipWs]
  rw [if_neg (by decide)]

theorem skipWs_rbrace (l : List Char) : skipWs (rbraceChar :: l) = rbraceChar :: l := by
  simp only [skipWs]
  rw [if_neg (by decide)]

theorem skipWs_colon (l : List Char) : skipWs (':' :: l) = ':' :: l := by
  simp only [skipWs]
  rw [if_neg (by decide)]

theorem skipWs_comma (l : List Char) : skipWs (',' :: l) = ',' :: l := by
  simp only [skipWs]
  rw [if_neg (by decide)]

theorem skipWs_space (l : List Char) : skipWs (' ' :: l) = skipWs l := by
  simp only [skipWs]
  rw [if_pos (Or.inl trivial)]

theorem skipWs_encode (s : String) (rest : List Char) :
    skipWs (encodeString s ++ rest) = encodeString s ++ rest := by
  rw [show encodeString s ++ rest = quoteChar :: (escapeList s.data ++ (quoteChar :: rest)) by
    simp [encodeString]]
  exact skipWs_quote _

theorem parseMembers_cons_space (fuel : Nat) (l : List Char) :
    parseMembers (fuel + 1) (' ' :: l) = parseMembers (fuel + 1) l := by
  simp only [parseMembers, skipWs_space]

theorem parseMembers_step (fuel : Nat) (k v : String) (tail : List Char) :
    parseMembers (fuel + 1)
        (encodeString k ++ ([':', ' '] ++ (encodeString v ++ ([',', ' '] ++ tail))))
      = (parseMembers fuel (' ' :: tail)).map (fun p => ((k, v) :: p.1, p.2)) := by
  simp only [parseMembers, skipWs_encode, parseJString_encode, List.cons_append,
    List.nil_append, skipWs_colon, skipWs_space, skipWs_comma, mkData, if_true]
  cases parseMembers fuel (' ' :: tail) with
  | none => rfl
  | some p => rfl

theorem parseMembers_last (fuel : Nat) (k v : String) (tail : List Char) :
    parseMembers (fuel + 1)
        (encodeString k ++ ([':', ' '] ++ (encodeString v ++ (rbraceChar :: tail))))
      = some ([(k, v)], tail) := by
  simp only [parseMembers, skipWs_encode, parseJString_encode, List.cons_append,
    List.nil_append, skipWs_colon, skipWs_space, skipWs_rbrace, mkData, if_true]
  rw [if_neg (by decide)]


theorem parseMembers_dumpsBody (fuel : Nat) (it : InventoryItem) (tail : List Char) :
    parseMembers (fuel + 3) (dumpsBody it ++ (rbraceChar :: tail))
      = some ([("id", it.id), ("bucket-id", it.bucketId), ("bucket-name", it.bucketName)],
          tail) := by
  rw [show dumpsBody it ++ (rbraceChar :: tail)
      = encodeString "id" ++ ([':', ' '] ++ (encodeString it.id ++ ([',', ' ']
        ++ (encodeString "bucket-id" ++ ([':', ' '] ++ (encodeString it.bucketId ++ ([',', ' ']
        ++ (encodeString "bucket-name" ++ ([':', ' ']
        ++ (encodeString it.bucketName ++ (rbraceChar :: tail))))))))))) by
    simp [dumpsBody, List.append_assoc]]
  rw [show fuel + 3 = (fuel + 2) + 1 from rfl, parseMembers_step]
  rw [show fuel + 2 = (fuel + 1) + 1 from rfl, parseMembers_cons_space, parseMembers_step]
  rw [parseMembers_cons_space, parseMembers_last]
  rfl

theorem loadsFlatObject_dumpsItem (it : InventoryItem) :
    loadsFlatObject (dumpsItem it)
      = some [("id", it.id), ("bucket-id", it.bucketId), ("bucket-name", it.bucketName)] := by
  have hbody : dumpsBody it ++ [rbraceChar] = encodeString "id" ++ ([':', ' ']
      ++ (encodeString it.id ++ ([',', ' '] ++ (encodeString "bucket-id" ++ ([':', ' ']
      ++ (encodeString it.bucketId ++ ([',', ' '] ++ (encodeString "bucket-name" ++ ([':', ' ']
      ++ (encodeString it.bucketName ++ (rbraceChar :: []))))))))))) := by
    simp [dumpsBody, List.append_assoc]
  have hskip : skipWs (dumpsBody it ++ [rbraceChar]) = dumpsBody it ++ [rbraceChar] := by
    rw [hbody]
    exact skipWs_encode _ _
  have hcons : dumpsBody it ++ [rbraceChar]
      = quoteChar :: (dumpsBody it ++ [rbraceChar]).tail := by
    rw [hbody]
    simp [encodeString, List.cons_append]
  simp only [loadsFlatObject, dumpsItem, List.cons_append, skipWs_lbrace, if_true]
  rw [show dumpsBody it ++ [rbraceChar] = dumpsBody it ++ (rbraceChar :: []) from rfl]
    at hskip hcons ⊢
  rw [parseMembers_dumpsBody, hskip, hcons]
  dsimp only
  rw [if_neg (by decide)]
  rfl


/-- C8: JSON-encoding an InventoryItem into a button value (as the chat
formatter does) and JSON-decoding that value and reading its id,
bucket-id and bucket-name fields (as the button-click handler does)
yields the identical triple, for every item. -/
theorem C8_button_roundtrip (it : InventoryItem) :
    decodeButtonValue (dumpsItem it) = some (it.id, it.bucketId, it.bucketName) := by
  simp only [decodeButtonValue, loadsFlatObject_dumpsItem]
  simp [pyDictGet]

end ClumioBot
